import Mathlib

/-!
ESP32 / Muses72323 preamplifier controller (`src/main.cpp`)


A shallow embedding of the control core of `main.cpp`: the global variables
become one record, every function of the sketch that reads or writes them
becomes a function on that record, and every call into a hardware library
(volume chip, source-select expander, settings store, backlight pin, display,
rotary encoder) is recorded, newest first, in the field `out`.

Inputs that the sketch obtains from its environment are parameters:
`millis()` readings, the triple delivered by `rc5.read`, the values held by
the settings store at start-up.
-/

namespace MusesClock

/-! ## Constants of the sketch -/

/-- Macro `#define STATE_RUN 0`: normal run state. -/
def STATE_RUN : Nat := 0

/-- Macro `#define STATE_IO 1`: the user selects the input. -/
def STATE_IO : Nat := 1

/-- Macro `#define TIME_EXITSELECT 5`: seconds of inactivity before leaving select mode. -/
def TIME_EXITSELECT : Nat := 5

/-! ## Machine integers -/

/-- Number of values of a 32-bit `unsigned long` (ESP32). -/
def U32 : Nat := 4294967296

/-- Subtraction of two `unsigned long` values, as in `millis() - milOnButton`. -/
def subU32 (a b : Nat) : Nat := (a % U32 + U32 - b % U32) % U32

/-- Conversion of an `unsigned long` to `int` (32-bit two's complement),
as in `int _duration = duration;`. -/
def toInt32 (n : Nat) : Int :=
  if n % U32 < 2147483648 then ((n % U32 : Nat) : Int) else ((n % U32 : Nat) : Int) - 4294967296

/-- Conversion of an `int32_t` to `int16_t` (two's complement), as in
`volume = preferences.getInt(...)`. -/
def toInt16 (i : Int) : Int :=
  if i % 65536 < 32768 then i % 65536 else i % 65536 - 65536

/-- Conversion of a `uint32_t` to `uint8_t`, as in `source = preferences.getUInt(...)`. -/
def toUInt8 (n : Nat) : Nat := n % 256

/-! ## Commands sent to the hardware libraries -/

/-- The two free fonts the sketch switches between. -/
inductive Font
  | FSS18
  | FSS24
  deriving DecidableEq, Repr

/-- What `tft.drawString` is asked to draw. The attenuation text is
`sprintf(buffer1, "  %.2fdB  ", (float)volume / 4)`; it is kept as the volume
it is computed from. -/
inductive Text
  | atten (volume : Int)
  | muted
  | inputName (index : Int)
  deriving DecidableEq, Repr

/-- One call into a hardware library. -/
inductive Cmd
  /-- Call `Muses.setVolume(l, r)` -/
  | musesSetVolume (l r : Int)
  /-- Call `Muses.mute()` -/
  | musesMute
  /-- Call `preferences.putInt("VOLUME", v)` -/
  | putIntVOLUME (v : Int)
  /-- Call `preferences.putUInt("SOURCE", v)` -/
  | putUIntSOURCE (v : Nat)
  /-- Call `digitalWrite(TFT_BL, HIGH)` for `true`, `LOW` for `false` -/
  | digitalWriteBL (high : Bool)
  /-- Call `MCP.write1(pin, HIGH)` for `true`, `LOW` for `false` -/
  | mcpWrite1 (pin : Int) (high : Bool)
  /-- Call `tft.setTextSize(n)` -/
  | tftSetTextSize (n : Nat)
  /-- Call `tft.setFreeFont(f)` -/
  | tftSetFreeFont (f : Font)
  /-- Call `tft.fillScreen(TFT_WHITE)` -/
  | tftFillScreen
  /-- Call `tft.drawString(t, x, y, 1)` -/
  | tftDrawString (t : Text) (x y : Nat)
  /-- Call `rotaryEncoder.setEncoderValue(v)` -/
  | setEncoderValue (v : Int)
  deriving DecidableEq, Repr

/-- Commands addressed to the volume chip. -/
def Cmd.isMuses : Cmd → Bool
  | .musesSetVolume _ _ => true
  | .musesMute => true
  | _ => false

/-! ## The global variables -/

/-- The globals of `main.cpp` that the control core reads or writes.
`volume` is an `int16_t`, `source`, `oldsource` and `state` are `uint8_t`,
`oldtoggle` is a `uint16_t`, `milOnButton` an `unsigned long`. Every
arithmetic update of `volume` and `source` in the sketch is guarded so that it
cannot leave the type, so they are kept as unbounded integers. -/
structure Globals where
  volume : Int
  backlight : Bool
  source : Nat
  oldsource : Nat
  isMuted : Bool
  state : Nat
  milOnButton : Nat
  oldtoggle : Nat
  turnedRightFlag : Bool
  turnedLeftFlag : Bool
  /-- calls into the hardware libraries, most recent first -/
  out : List Cmd
  deriving DecidableEq, Repr

/-- Record a library call. -/
def emit (c : Cmd) (s : Globals) : Globals :=
  { s with out := c :: s.out }

/-- The most recent command the volume chip received. -/
def lastMuses (s : Globals) : Option Cmd :=
  s.out.find? Cmd.isMuses

/-- What `rc5.read(&toggle, &address, &command)` delivers when it returns true. -/
structure RC5Event where
  toggle : Nat
  address : Nat
  command : Nat
  deriving DecidableEq, Repr

/-! ## The functions of the sketch -/

/-- Function `void setVolume()` -/
def setVolume (s : Globals) : Globals :=
  let s := emit (.musesSetVolume s.volume s.volume) s
  let s := emit (.putIntVOLUME s.volume) s
  let s := if !s.backlight then emit (.digitalWriteBL true) { s with backlight := true } else s
  let s := emit (.tftSetTextSize 2) s
  let s := emit (.tftSetFreeFont .FSS18) s
  let s := emit (.tftDrawString (.atten s.volume) 150 120) s
  let s := emit (.tftSetTextSize 1) s
  emit (.tftSetFreeFont .FSS24) s

/-- Function `void setIO()` -/
def setIO (s : Globals) : Globals :=
  let s := emit (.mcpWrite1 ((s.oldsource : Int) - 1) false) s
  let s := emit (.mcpWrite1 ((s.source : Int) - 1) true) s
  let s := emit (.putUIntSOURCE s.source) s
  let s :=
    if s.isMuted then
      let s := if !s.backlight then emit (.digitalWriteBL true) { s with backlight := true } else s
      let s := { s with isMuted := false }
      let s := emit .tftFillScreen s
      setVolume s
    else s
  emit (.tftDrawString (.inputName ((s.source : Int) - 1)) 150 200) s

/-- Function `void unMute()` -/
def unMute (s : Globals) : Globals :=
  let s := if !s.backlight then emit (.digitalWriteBL true) { s with backlight := true } else s
  let s := { s with isMuted := false }
  let s := setVolume s
  setIO s

/-- Function `void mute()` -/
def mute (s : Globals) : Globals :=
  let s := { s with isMuted := true }
  let s := emit .musesMute s
  let s := emit (.tftSetTextSize 2) s
  let s := emit (.tftSetFreeFont .FSS18) s
  let s := emit (.tftDrawString .muted 160 120) s
  let s := emit (.tftSetTextSize 1) s
  emit (.tftSetFreeFont .FSS24) s

/-- Function `void toggleMute()` -/
def toggleMute (s : Globals) : Globals :=
  if s.isMuted then unMute s else mute s

/-- Function `void knobCallback(long value)` -/
def knobCallback (value : Int) (s : Globals) : Globals :=
  if s.turnedRightFlag || s.turnedLeftFlag then s
  else
    let s :=
      if value = 1 then { s with turnedRightFlag := true }
      else if value = -1 then { s with turnedLeftFlag := true }
      else s
    emit (.setEncoderValue 0) s

/-- Function `void buttonCallback(unsigned long duration)`; `now` is the value
`millis()` returns if it is called. -/
def buttonCallback (duration now : Nat) (s : Globals) : Globals :=
  let _duration : Int := toInt32 duration
  if _duration > 50 then
    if s.state = STATE_RUN then
      let s := { s with state := STATE_IO }
      { s with milOnButton := now % U32 }
    else s
  else s

/-- Function `void volumeUpdate()` -/
def volumeUpdate (s : Globals) : Globals :=
  if s.turnedRightFlag then
    let s := if s.isMuted then unMute s else s
    let s :=
      if s.volume < 0 then
        let s := { s with volume := s.volume + 1 }
        setVolume s
      else s
    { s with turnedRightFlag := false }
  else if s.turnedLeftFlag then
    let s := if s.isMuted then unMute s else s
    let s :=
      if s.volume > -447 then
        let s := { s with volume := s.volume - 1 }
        setVolume s
      else s
    { s with turnedLeftFlag := false }
  else s

/-- Function `void sourceUpdate()`; `now` is the value `millis()` returns if it is called. -/
def sourceUpdate (now : Nat) (s : Globals) : Globals :=
  if s.turnedRightFlag then
    let s := { s with oldsource := s.source }
    let s := { s with milOnButton := now % U32 }
    let s := if s.oldsource < 4 then { s with source := s.source + 1 } else { s with source := 1 }
    let s := setIO s
    { s with turnedRightFlag := false }
  else if s.turnedLeftFlag then
    let s := { s with oldsource := s.source }
    let s := { s with milOnButton := now % U32 }
    let s := if s.source > 1 then { s with source := s.source - 1 } else { s with source := 4 }
    let s := if !s.backlight then emit (.digitalWriteBL true) { s with backlight := true } else s
    let s := setIO s
    { s with turnedLeftFlag := false }
  else s

/-- Function `void RC5Update()`; `ev` is `none` when `rc5.read` returns false. -/
def RC5Update (ev : Option RC5Event) (s : Globals) : Globals :=
  match ev with
  | none => s
  | some e =>
    let s :=
      if e.address = 0x10 then
        if e.command = 1 then
          if s.oldtoggle ≠ e.toggle then
            let s := if !s.backlight then unMute s else s
            let s := { s with oldsource := s.source }
            let s := { s with source := 1 }
            setIO s
          else s
        else if e.command = 3 then
          if s.oldtoggle ≠ e.toggle then
            let s := if !s.backlight then unMute s else s
            let s := { s with oldsource := s.source }
            let s := { s with source := 4 }
            setIO s
          else s
        else if e.command = 7 then
          if s.oldtoggle ≠ e.toggle then
            let s := if !s.backlight then unMute s else s
            let s := { s with oldsource := s.source }
            let s := { s with source := 3 }
            setIO s
          else s
        else if e.command = 8 then
          if s.oldtoggle ≠ e.toggle then
            let s := if !s.backlight then unMute s else s
            let s := { s with oldsource := s.source }
            let s := { s with source := 2 }
            setIO s
          else s
        else if e.command = 13 then
          if s.oldtoggle ≠ e.toggle then toggleMute s else s
        else if e.command = 16 then
          let s := if s.isMuted then unMute s else s
          if s.volume < 0 then
            let s := { s with volume := s.volume + 1 }
            setVolume s
          else s
        else if e.command = 17 then
          let s := if s.isMuted then unMute s else s
          if s.volume > -447 then
            let s := { s with volume := s.volume - 1 }
            setVolume s
          else s
        else if e.command = 59 then
          if s.oldtoggle ≠ e.toggle then
            if s.backlight then
              emit (.digitalWriteBL false) { s with backlight := false }
            else
              emit (.digitalWriteBL true) { s with backlight := true }
          else s
        else s
      else if e.address = 0x14 then
        if s.oldtoggle ≠ e.toggle then
          if e.command = 53 then
            let s := if !s.backlight then unMute s else s
            let s := { s with oldsource := s.source }
            let s := { s with source := 3 }
            setIO s
          else s
        else s
      else s
    { s with oldtoggle := e.toggle }

/-- Function `void RotaryUpdate()`; `tSrc` is the `millis()` reading taken inside
`sourceUpdate` (if it takes one), `tChk` the reading of the time-out test. -/
def RotaryUpdate (tSrc tChk : Nat) (s : Globals) : Globals :=
  if s.state = STATE_RUN then volumeUpdate s
  else if s.state = STATE_IO then
    let s := sourceUpdate tSrc s
    if subU32 tChk s.milOnButton > TIME_EXITSELECT * 1000 then { s with state := STATE_RUN }
    else s
  else s

/-- The globals as the C++ start-up code leaves them: zero, except for the
initialiser `oldsource = 1`. -/
def powerUp : Globals :=
  { volume := 0, backlight := false, source := 0, oldsource := 1, isMuted := false,
    state := 0, milOnButton := 0, oldtoggle := 0,
    turnedRightFlag := false, turnedLeftFlag := false, out := [] }

/-- The part of `void setup()` from `Muses.mute()` on. `storedSource` and
`storedVolume` are what the settings store holds under `"SOURCE"` (a
`uint32_t`) and `"VOLUME"` (an `int32_t`), `none` when the key is absent.
The display, Wi-Fi and clock bring-up before it writes none of the globals. -/
def setup (storedSource : Option Nat) (storedVolume : Option Int) : Globals :=
  let s := emit .musesMute powerUp
  let s := { s with source := toUInt8 (storedSource.getD 1) }
  let s := { s with volume := toInt16 (storedVolume.getD (-447)) }
  let s := if s.volume > 0 then { s with volume := -447 } else s
  let s := setVolume s
  let s := setIO s
  { s with isMuted := false }

/-! ## Named blocks of `RC5Update` and `volumeUpdate`

The sketch repeats the same statements in several `case` arms; the blocks
below name them so that `RC5Update` and `volumeUpdate` can be rewritten (by
`rfl`) into a compact dispatch. -/

/-- The block shared by the four source buttons and the disc-player play command. -/
def selectBlock (n : Nat) (s : Globals) : Globals :=
  let s := if !s.backlight then unMute s else s
  let s := { s with oldsource := s.source }
  let s := { s with source := n }
  setIO s

/-- The body of `case 16` of `RC5Update` and of the right-turn branch of `volumeUpdate`. -/
def volUpBlock (s : Globals) : Globals :=
  let s := if s.isMuted then unMute s else s
  if s.volume < 0 then
    let s := { s with volume := s.volume + 1 }
    setVolume s
  else s

/-- The body of `case 17` of `RC5Update` and of the left-turn branch of `volumeUpdate`. -/
def volDownBlock (s : Globals) : Globals :=
  let s := if s.isMuted then unMute s else s
  if s.volume > -447 then
    let s := { s with volume := s.volume - 1 }
    setVolume s
  else s

/-- The body of `case 59` of `RC5Update`. -/
def displayToggleBlock (s : Globals) : Globals :=
  if s.backlight then emit (.digitalWriteBL false) { s with backlight := false }
  else emit (.digitalWriteBL true) { s with backlight := true }

/-- The statement executed by `RC5Update` for a decoded event, before `oldtoggle = toggle`. -/
def rc5Body (e : RC5Event) (s : Globals) : Globals :=
  if e.address = 0x10 then
    if e.command = 1 then (if s.oldtoggle ≠ e.toggle then selectBlock 1 s else s)
    else if e.command = 3 then (if s.oldtoggle ≠ e.toggle then selectBlock 4 s else s)
    else if e.command = 7 then (if s.oldtoggle ≠ e.toggle then selectBlock 3 s else s)
    else if e.command = 8 then (if s.oldtoggle ≠ e.toggle then selectBlock 2 s else s)
    else if e.command = 13 then (if s.oldtoggle ≠ e.toggle then toggleMute s else s)
    else if e.command = 16 then volUpBlock s
    else if e.command = 17 then volDownBlock s
    else if e.command = 59 then (if s.oldtoggle ≠ e.toggle then displayToggleBlock s else s)
    else s
  else if e.address = 0x14 then
    if s.oldtoggle ≠ e.toggle then (if e.command = 53 then selectBlock 3 s else s) else s
  else s

/-! ## Sequences of volume adjustments -/

/-- One volume adjustment: a knob detent to the right or to the left, handled
by `volumeUpdate`, or a remote volume command (address `0x10`, command 16 or
17) carrying some toggle bit, handled by `RC5Update`. -/
inductive VolAdj
  | knobRight
  | knobLeft
  | remoteUp (toggle : Nat)
  | remoteDown (toggle : Nat)
  deriving DecidableEq, Repr

/-- Apply one volume adjustment: the encoder interrupt latches the turn with
`knobCallback`, the loop consumes it with `volumeUpdate`; a remote command is
polled by `RC5Update`. -/
def applyAdj (a : VolAdj) (s : Globals) : Globals :=
  match a with
  | .knobRight => volumeUpdate (knobCallback 1 s)
  | .knobLeft => volumeUpdate (knobCallback (-1) s)
  | .remoteUp t => RC5Update (some ⟨t, 0x10, 16⟩) s
  | .remoteDown t => RC5Update (some ⟨t, 0x10, 17⟩) s

/-- Apply a finite sequence of volume adjustments, first element first. -/
def runAdj (as : List VolAdj) (s : Globals) : Globals :=
  as.foldl (fun st a => applyAdj a st) s

/-! ## Remote events -/

/-- The commands that `RC5Update` executes only on a fresh toggle bit. -/
def toggleGated (address command : Nat) : Bool :=
  (address == 0x10 && (command == 1 || command == 3 || command == 7 || command == 8 ||
    command == 13 || command == 59)) || (address == 0x14 && command == 53)

/-- What a toggle-gated command does once it is executed. -/
def gatedAction (address command : Nat) (s : Globals) : Globals :=
  if address = 0x10 then
    if command = 1 then selectBlock 1 s
    else if command = 3 then selectBlock 4 s
    else if command = 7 then selectBlock 3 s
    else if command = 8 then selectBlock 2 s
    else if command = 13 then toggleMute s
    else if command = 59 then displayToggleBlock s
    else s
  else if address = 0x14 then
    if command = 53 then selectBlock 3 s else s
  else s

/-- The same remote event polled `n` times in a row. -/
def repeatRC5 (e : RC5Event) : Nat → Globals → Globals
  | 0, s => s
  | n + 1, s => repeatRC5 e n (RC5Update (some e) s)

/-! ## The actuators as explicit state, replayed from the trace -/

/-- Level of output line `p` of the source-select bank after the calls in a
trace (newest first); every line is low after `MCP.begin()`. -/
def bankLine : List Cmd → Int → Bool
  | [], _ => false
  | .mcpWrite1 pin high :: rest, p => if p = pin then high else bankLine rest p
  | _ :: rest, p => bankLine rest p

/-- Value most recently written under `"VOLUME"` by the calls in a trace. -/
def lastPutVolume : List Cmd → Option Int
  | [] => none
  | .putIntVOLUME v :: _ => some v
  | _ :: rest => lastPutVolume rest

/-- Value most recently written under `"SOURCE"` by the calls in a trace. -/
def lastPutSource : List Cmd → Option Nat
  | [] => none
  | .putUIntSOURCE v :: _ => some v
  | _ :: rest => lastPutSource rest

/-- The settings store as explicit state: what it holds under each key. -/
structure Store where
  volume : Option Int
  source : Option Nat
  deriving DecidableEq, Repr

/-- The store after the calls in a trace, starting from `init`. -/
def storeAfter (init : Store) (out : List Cmd) : Store :=
  { volume := (lastPutVolume out).orElse (fun _ => init.volume),
    source := (lastPutSource out).orElse (fun _ => init.source) }

/-- The volume chip as explicit state. -/
inductive Chip
  | muted
  | unmuted (l r : Int)
  deriving DecidableEq, Repr

/-- The chip state after the calls in a trace; `none` before the first call. -/
def chipState (s : Globals) : Option Chip :=
  match lastMuses s with
  | some (.musesSetVolume l r) => some (.unmuted l r)
  | some _ => some .muted
  | none => none

/-! ## Events and reachable states -/

/-- One event of the control loop. -/
inductive Event
  | knob (value : Int)
  | button (duration now : Nat)
  | remote (ev : Option RC5Event)
  | rotary (tSrc tChk : Nat)
  deriving DecidableEq, Repr

/-- Handle one event. -/
def step (e : Event) (s : Globals) : Globals :=
  match e with
  | .knob v => knobCallback v s
  | .button d now => buttonCallback d now s
  | .remote ev => RC5Update ev s
  | .rotary tSrc tChk => RotaryUpdate tSrc tChk s

/-- Handle a finite sequence of events, first element first. -/
def run (es : List Event) (s : Globals) : Globals :=
  es.foldl (fun st e => step e st) s

/-! ## Invariants -/

/-- Exactly the line of the current source is high. -/
def BankOK (s : Globals) : Prop :=
  ∀ p : Int, bankLine s.out p = true ↔ p = (s.source : Int) - 1

/-- While `isMuted` holds, the last call to the volume chip was `Muses.mute()`. -/
def MuteOK (s : Globals) : Prop :=
  s.isMuted = true → lastMuses s = some .musesMute

/-- The last values written to the settings store are the current volume and source. -/
def StoreOK (s : Globals) : Prop :=
  lastPutVolume s.out = some s.volume ∧ lastPutSource s.out = some s.source

/-- The three trace invariants together. -/
def Inv (s : Globals) : Prop := BankOK s ∧ MuteOK s ∧ StoreOK s

/-- Both `source` and `oldsource` name one of the four inputs. -/
def SourceOK (s : Globals) : Prop :=
  (1 ≤ s.source ∧ s.source ≤ 4) ∧ (1 ≤ s.oldsource ∧ s.oldsource ≤ 4)

/-- The (address, command) pairs that `RC5Update` has a `case` for. -/
def recognized (address command : Nat) : Bool :=
  (address == 0x10 && (command == 1 || command == 3 || command == 7 || command == 8 ||
    command == 13 || command == 16 || command == 17 || command == 59)) ||
  (address == 0x14 && command == 53)

/-- The lines of the eight-line expander that are high after the calls in a trace. -/
def highLines (out : List Cmd) : List Nat :=
  (List.range 8).filter (fun i => bankLine out (i : Int))

/-- Relative to a state `s`: if the volume of `x` differs, the last value
written under `"VOLUME"` in the trace of `x` is its volume, and likewise for
the source. -/
def Written (s x : Globals) : Prop :=
  (x.volume ≠ s.volume → lastPutVolume x.out = some x.volume) ∧
  (x.source ≠ s.source → lastPutSource x.out = some x.source)

/-! ## Calls that touch the knob flags -/

/-- One call among those that read or write the knob flags. -/
inductive KnobOp
  | callback (value : Int)
  | volume
  | source (now : Nat)
  deriving DecidableEq, Repr

/-- Perform one such call. -/
def applyKnobOp (o : KnobOp) (s : Globals) : Globals :=
  match o with
  | .callback v => knobCallback v s
  | .volume => volumeUpdate s
  | .source now => sourceUpdate now s

/-- Perform a finite interleaving of such calls, first element first. -/
def runKnobOps (os : List KnobOp) (s : Globals) : Globals :=
  os.foldl (fun st o => applyKnobOp o st) s

/-! ## Frame lemmas: which globals each function writes -/

section Frame

variable (s : Globals)

@[simp] theorem emit_volume (c : Cmd) : (emit c s).volume = s.volume := rfl
@[simp] theorem emit_backlight (c : Cmd) : (emit c s).backlight = s.backlight := rfl
@[simp] theorem emit_source (c : Cmd) : (emit c s).source = s.source := rfl
@[simp] theorem emit_oldsource (c : Cmd) : (emit c s).oldsource = s.oldsource := rfl
@[simp] theorem emit_isMuted (c : Cmd) : (emit c s).isMuted = s.isMuted := rfl
@[simp] theorem emit_state (c : Cmd) : (emit c s).state = s.state := rfl
@[simp] theorem emit_milOnButton (c : Cmd) : (emit c s).milOnButton = s.milOnButton := rfl
@[simp] theorem emit_oldtoggle (c : Cmd) : (emit c s).oldtoggle = s.oldtoggle := rfl
@[simp] theorem emit_turnedRightFlag (c : Cmd) :
    (emit c s).turnedRightFlag = s.turnedRightFlag := rfl
@[simp] theorem emit_turnedLeftFlag (c : Cmd) :
    (emit c s).turnedLeftFlag = s.turnedLeftFlag := rfl
@[simp] theorem emit_out (c : Cmd) : (emit c s).out = c :: s.out := rfl

@[simp] theorem setVolume_volume : (setVolume s).volume = s.volume := by
  cases h : s.backlight <;> simp [setVolume, emit, h]
@[simp] theorem setVolume_backlight : (setVolume s).backlight = true := by
  cases h : s.backlight <;> simp [setVolume, emit, h]
@[simp] theorem setVolume_source : (setVolume s).source = s.source := by
  cases h : s.backlight <;> simp [setVolume, emit, h]
@[simp] theorem setVolume_oldsource : (setVolume s).oldsource = s.oldsource := by
  cases h : s.backlight <;> simp [setVolume, emit, h]
@[simp] theorem setVolume_isMuted : (setVolume s).isMuted = s.isMuted := by
  cases h : s.backlight <;> simp [setVolume, emit, h]
@[simp] theorem setVolume_state : (setVolume s).state = s.state := by
  cases h : s.backlight <;> simp [setVolume, emit, h]
@[simp] theorem setVolume_milOnButton : (setVolume s).milOnButton = s.milOnButton := by
  cases h : s.backlight <;> simp [setVolume, emit, h]
@[simp] theorem setVolume_oldtoggle : (setVolume s).oldtoggle = s.oldtoggle := by
  cases h : s.backlight <;> simp [setVolume, emit, h]
@[simp] theorem setVolume_turnedRightFlag :
    (setVolume s).turnedRightFlag = s.turnedRightFlag := by
  cases h : s.backlight <;> simp [setVolume, emit, h]
@[simp] theorem setVolume_turnedLeftFlag :
    (setVolume s).turnedLeftFlag = s.turnedLeftFlag := by
  cases h : s.backlight <;> simp [setVolume, emit, h]

theorem setVolume_out : (setVolume s).out =
    [.tftSetFreeFont .FSS24, .tftSetTextSize 1, .tftDrawString (.atten s.volume) 150 120,
      .tftSetFreeFont .FSS18, .tftSetTextSize 2]
    ++ (if s.backlight then [] else [.digitalWriteBL true])
    ++ [.putIntVOLUME s.volume, .musesSetVolume s.volume s.volume] ++ s.out := by
  cases h : s.backlight <;> simp [setVolume, emit, h]

@[simp] theorem setIO_volume :
    ( setIO s).volume = s.volume := by
  cases hm : s.isMuted <;> cases hb : s.backlight <;> simp [ setIO, emit, hm, hb]
@[simp] theorem setIO_source :
    ( setIO s).source = s.source := by
  cases hm : s.isMuted <;> cases hb : s.backlight <;> simp [ setIO, emit, hm, hb]
@[simp] theorem setIO_oldsource :
    ( setIO s).oldsource = s.oldsource := by
  cases hm : s.isMuted <;> cases hb : s.backlight <;> simp [ setIO, emit, hm, hb]
@[simp] theorem setIO_state :
    ( setIO s).state = s.state := by
  cases hm : s.isMuted <;> cases hb : s.backlight <;> simp [ setIO, emit, hm, hb]
@[simp] theorem setIO_milOnButton :
    ( setIO s).milOnButton = s.milOnButton := by
  cases hm : s.isMuted <;> cases hb : s.backlight <;> simp [ setIO, emit, hm, hb]
@[simp] theorem setIO_oldtoggle :
    ( setIO s).oldtoggle = s.oldtoggle := by
  cases hm : s.isMuted <;> cases hb : s.backlight <;> simp [ setIO, emit, hm, hb]
@[simp] theorem setIO_turnedRightFlag :
    ( setIO s).turnedRightFlag = s.turnedRightFlag := by
  cases hm : s.isMuted <;> cases hb : s.backlight <;> simp [ setIO, emit, hm, hb]
@[simp] theorem setIO_turnedLeftFlag :
    ( setIO s).turnedLeftFlag = s.turnedLeftFlag := by
  cases hm : s.isMuted <;> cases hb : s.backlight <;> simp [ setIO, emit, hm, hb]
@[simp] theorem setIO_isMuted :
    ( setIO s).isMuted = false := by
  cases hm : s.isMuted <;> cases hb : s.backlight <;> simp [ setIO, emit, hm, hb]
@[simp] theorem setIO_backlight :
    ( setIO s).backlight = (s.backlight || s.isMuted) := by
  cases hm : s.isMuted <;> cases hb : s.backlight <;> simp [ setIO, emit, hm, hb]

@[simp] theorem unMute_volume :
    (unMute s).volume = s.volume := by
  cases hb : s.backlight <;> simp [unMute, emit, hb]
@[simp] theorem unMute_source :
    (unMute s).source = s.source := by
  cases hb : s.backlight <;> simp [unMute, emit, hb]
@[simp] theorem unMute_oldsource :
    (unMute s).oldsource = s.oldsource := by
  cases hb : s.backlight <;> simp [unMute, emit, hb]
@[simp] theorem unMute_state :
    (unMute s).state = s.state := by
  cases hb : s.backlight <;> simp [unMute, emit, hb]
@[simp] theorem unMute_milOnButton :
    (unMute s).milOnButton = s.milOnButton := by
  cases hb : s.backlight <;> simp [unMute, emit, hb]
@[simp] theorem unMute_oldtoggle :
    (unMute s).oldtoggle = s.oldtoggle := by
  cases hb : s.backlight <;> simp [unMute, emit, hb]
@[simp] theorem unMute_turnedRightFlag :
    (unMute s).turnedRightFlag = s.turnedRightFlag := by
  cases hb : s.backlight <;> simp [unMute, emit, hb]
@[simp] theorem unMute_turnedLeftFlag :
    (unMute s).turnedLeftFlag = s.turnedLeftFlag := by
  cases hb : s.backlight <;> simp [unMute, emit, hb]
@[simp] theorem unMute_isMuted : (unMute s).isMuted = false := by
  simp [unMute]
@[simp] theorem unMute_backlight : (unMute s).backlight = true := by
  simp [unMute]

@[simp] theorem mute_volume : (mute s).volume = s.volume := rfl
@[simp] theorem mute_source : (mute s).source = s.source := rfl
@[simp] theorem mute_oldsource : (mute s).oldsource = s.oldsource := rfl
@[simp] theorem mute_state : (mute s).state = s.state := rfl
@[simp] theorem mute_milOnButton : (mute s).milOnButton = s.milOnButton := rfl
@[simp] theorem mute_oldtoggle : (mute s).oldtoggle = s.oldtoggle := rfl
@[simp] theorem mute_turnedRightFlag : (mute s).turnedRightFlag = s.turnedRightFlag := rfl
@[simp] theorem mute_turnedLeftFlag : (mute s).turnedLeftFlag = s.turnedLeftFlag := rfl
@[simp] theorem mute_backlight : (mute s).backlight = s.backlight := rfl
@[simp] theorem mute_isMuted : (mute s).isMuted = true := rfl
theorem mute_out : (mute s).out =
    [.tftSetFreeFont .FSS24, .tftSetTextSize 1, .tftDrawString .muted 160 120,
      .tftSetFreeFont .FSS18, .tftSetTextSize 2, .musesMute] ++ s.out := rfl

end Frame

/-! ## Volume arithmetic -/

/-- The volume after `volumeUpdate`: one step up on a latched right turn below
0, one step down on a latched left turn above -447, unchanged otherwise. -/
theorem volumeUpdate_volume (s : Globals) :
    (volumeUpdate s).volume =
      if s.turnedRightFlag then (if s.volume < 0 then s.volume + 1 else s.volume)
      else if s.turnedLeftFlag then (if s.volume > -447 then s.volume - 1 else s.volume)
      else s.volume := by
  unfold volumeUpdate
  cases hr : s.turnedRightFlag <;> cases hl : s.turnedLeftFlag <;>
    cases hm : s.isMuted <;> simp <;> split <;> simp_all

/-- After consuming a turn `volumeUpdate` always leaves the device unmuted. -/
theorem volumeUpdate_isMuted (s : Globals) (h : s.turnedRightFlag = true ∨ s.turnedLeftFlag = true) :
    (volumeUpdate s).isMuted = false := by
  unfold volumeUpdate
  cases hr : s.turnedRightFlag <;> cases hl : s.turnedLeftFlag <;>
    cases hm : s.isMuted <;> simp_all <;> split <;> simp_all

/-! ## Dispatch normal forms -/

theorem RC5Update_some (e : RC5Event) (s : Globals) :
    RC5Update (some e) s = { rc5Body e s with oldtoggle := e.toggle } := rfl

theorem volumeUpdate_eq (s : Globals) :
    volumeUpdate s =
      if s.turnedRightFlag then { volUpBlock s with turnedRightFlag := false }
      else if s.turnedLeftFlag then { volDownBlock s with turnedLeftFlag := false }
      else s := rfl

theorem volUpBlock_volume (s : Globals) :
    (volUpBlock s).volume = if s.volume < 0 then s.volume + 1 else s.volume := by
  cases hm : s.isMuted <;> simp [volUpBlock, hm] <;> split <;> simp

theorem selectBlock_volume (n : Nat) (s : Globals) : (selectBlock n s).volume = s.volume := by
  cases hb : s.backlight <;> simp [selectBlock, hb]


theorem volDownBlock_volume (s : Globals) :
    (volDownBlock s).volume = if s.volume > -447 then s.volume - 1 else s.volume := by
  cases hm : s.isMuted <;> simp [volDownBlock, hm] <;> split <;> simp

theorem volUpBlock_isMuted (s : Globals) : (volUpBlock s).isMuted = false := by
  cases hm : s.isMuted <;> simp [volUpBlock, hm] <;> split <;> simp [hm]

theorem volDownBlock_isMuted (s : Globals) : (volDownBlock s).isMuted = false := by
  cases hm : s.isMuted <;> simp [volDownBlock, hm] <;> split <;> simp [hm]

theorem toggleMute_volume (s : Globals) : (toggleMute s).volume = s.volume := by
  cases hm : s.isMuted <;> simp [toggleMute, hm]

theorem displayToggleBlock_volume (s : Globals) : (displayToggleBlock s).volume = s.volume := by
  cases hb : s.backlight <;> simp [displayToggleBlock, hb]

theorem rc5Body_volume (e : RC5Event) (s : Globals) :
    (rc5Body e s).volume =
      if e.address = 0x10 ∧ e.command = 16 then (if s.volume < 0 then s.volume + 1 else s.volume)
      else if e.address = 0x10 ∧ e.command = 17 then
        (if s.volume > -447 then s.volume - 1 else s.volume)
      else s.volume := by
  rcases e with ⟨t, a, c⟩
  simp only [rc5Body]
  by_cases ha : a = 16
  · by_cases h16 : c = 16
    · simp [ha, h16, volUpBlock_volume]
    · by_cases h17 : c = 17
      · simp [ha, h17, volDownBlock_volume]
      · simp only [ha, h16, h17, false_and, and_false, if_false, if_true, true_and]
        split_ifs <;>
          simp only [selectBlock_volume, toggleMute_volume, displayToggleBlock_volume]
  · simp only [ha, false_and, if_false]
    split_ifs <;> simp only [selectBlock_volume]

theorem knobCallback_volume (v : Int) (s : Globals) : (knobCallback v s).volume = s.volume := by
  unfold knobCallback
  split_ifs <;> rfl

theorem applyAdj_volume_range (a : VolAdj) (s : Globals)
    (hlo : -447 ≤ s.volume) (hhi : s.volume ≤ 0) :
    -447 ≤ (applyAdj a s).volume ∧ (applyAdj a s).volume ≤ 0 := by
  cases a with
  | knobRight =>
    simp only [applyAdj, volumeUpdate_volume, knobCallback_volume]
    split_ifs <;> omega
  | knobLeft =>
    simp only [applyAdj, volumeUpdate_volume, knobCallback_volume]
    split_ifs <;> omega
  | remoteUp t =>
    simp only [applyAdj, RC5Update_some, rc5Body_volume]
    split_ifs <;> omega
  | remoteDown t =>
    simp only [applyAdj, RC5Update_some, rc5Body_volume]
    split_ifs <;> omega

theorem runAdj_volume_range (adjs : List VolAdj) (s : Globals)
    (hlo : -447 ≤ s.volume) (hhi : s.volume ≤ 0) :
    -447 ≤ (runAdj adjs s).volume ∧ (runAdj adjs s).volume ≤ 0 := by
  induction adjs generalizing s with
  | nil => exact ⟨hlo, hhi⟩
  | cons a rest ih =>
    have h := applyAdj_volume_range a s hlo hhi
    exact ih (applyAdj a s) h.1 h.2

/-- C1 (volume saturation). From any state whose volume lies in [-447, 0],
every finite sequence of volume adjustments (knob detents consumed by
`volumeUpdate`, remote commands 16 and 17 of address 0x10 handled by
`RC5Update`, with any toggle bits) ends with the volume in [-447, 0]. A
decrement at -447 (latched left turn, or remote command 17) leaves the volume
at -447, and an increment at 0 (latched right turn, or remote command 16)
leaves it at 0. -/
theorem volume_saturation (s : Globals) (adjs : List VolAdj) (t : Nat)
    (hlo : -447 ≤ s.volume) (hhi : s.volume ≤ 0) :
    (-447 ≤ (runAdj adjs s).volume ∧ (runAdj adjs s).volume ≤ 0) ∧
    (volumeUpdate { s with
        volume := -447, turnedRightFlag := false, turnedLeftFlag := true }).volume = -447 ∧
    (RC5Update (some ⟨t, 0x10, 17⟩) { s with volume := -447 }).volume = -447 ∧
    (volumeUpdate { s with volume := 0, turnedRightFlag := true }).volume = 0 ∧
    (RC5Update (some ⟨t, 0x10, 16⟩) { s with volume := 0 }).volume = 0 := by
  refine ⟨runAdj_volume_range adjs s hlo hhi, ?_, ?_, ?_, ?_⟩
  · simp [volumeUpdate_volume]
  · simp [RC5Update_some, rc5Body_volume]
  · simp [volumeUpdate_volume]
  · simp [RC5Update_some, rc5Body_volume]

theorem volume_saturation_witness :
    (-447 ≤ (runAdj [.remoteDown 1, .knobLeft, .knobRight, .remoteUp 0, .remoteUp 0]
        (setup none none)).volume ∧
      (runAdj [.remoteDown 1, .knobLeft, .knobRight, .remoteUp 0, .remoteUp 0]
        (setup none none)).volume ≤ 0) ∧
    (volumeUpdate { setup none none with
        volume := -447, turnedRightFlag := false, turnedLeftFlag := true }).volume = -447 ∧
    (RC5Update (some ⟨1, 0x10, 17⟩) { setup none none with volume := -447 }).volume = -447 ∧
    (volumeUpdate { setup none none with volume := 0, turnedRightFlag := true }).volume = 0 ∧
    (RC5Update (some ⟨1, 0x10, 16⟩) { setup none none with volume := 0 }).volume = 0 :=
  volume_saturation (setup none none) _ 1 (by decide) (by decide)

/-! ## Source cycling and mute -/

theorem sourceUpdate_right (now : Nat) (s : Globals) (h : s.turnedRightFlag = true) :
    sourceUpdate now s =
      { setIO { s with
          oldsource := s.source, milOnButton := now % U32,
          source := if s.source < 4 then s.source + 1 else 1 } with
        turnedRightFlag := false } := by
  unfold sourceUpdate
  rw [if_pos h]
  by_cases h4 : s.source < 4
  · simp only [h4, if_true]
  · simp only [h4, if_false]

theorem sourceUpdate_left (now : Nat) (s : Globals) (hr : s.turnedRightFlag = false)
    (h : s.turnedLeftFlag = true) :
    sourceUpdate now s =
      { setIO (let s1 : Globals := { s with
          oldsource := s.source, milOnButton := now % U32,
          source := if s.source > 1 then s.source - 1 else 4 }
          if !s1.backlight then emit (.digitalWriteBL true) { s1 with backlight := true }
          else s1) with
        turnedLeftFlag := false } := by
  unfold sourceUpdate
  rw [if_neg (by simp [hr]), if_pos h]
  by_cases h1 : s.source > 1 <;> cases hb : s.backlight <;> simp [h1, hb]

theorem sourceUpdate_idle (now : Nat) (s : Globals) (hr : s.turnedRightFlag = false)
    (h : s.turnedLeftFlag = false) : sourceUpdate now s = s := by
  unfold sourceUpdate
  rw [if_neg (by simp [hr]), if_neg (by simp [h])]

/-- C2 (one volume step). For a state with volume `v` in [-447, 0]:
`volumeUpdate` with the right-turn flag latched, and `RC5Update` on (0x10, 16),
end with volume `max (-447) (min 0 (v + 1))`; `volumeUpdate` with only the
left-turn flag latched, and `RC5Update` on (0x10, 17), end with volume
`max (-447) (min 0 (v - 1))`; in all four cases `isMuted` is false afterwards. -/
theorem adjustVolume_step (s : Globals) (t : Nat)
    (hlo : -447 ≤ s.volume) (hhi : s.volume ≤ 0) :
    ((volumeUpdate { s with turnedRightFlag := true }).volume
        = max (-447) (min 0 (s.volume + 1)) ∧
      (volumeUpdate { s with turnedRightFlag := true }).isMuted = false) ∧
    ((volumeUpdate { s with turnedRightFlag := false, turnedLeftFlag := true }).volume
        = max (-447) (min 0 (s.volume - 1)) ∧
      (volumeUpdate { s with turnedRightFlag := false, turnedLeftFlag := true }).isMuted
        = false) ∧
    ((RC5Update (some ⟨t, 0x10, 16⟩) s).volume = max (-447) (min 0 (s.volume + 1)) ∧
      (RC5Update (some ⟨t, 0x10, 16⟩) s).isMuted = false) ∧
    ((RC5Update (some ⟨t, 0x10, 17⟩) s).volume = max (-447) (min 0 (s.volume - 1)) ∧
      (RC5Update (some ⟨t, 0x10, 17⟩) s).isMuted = false) := by
  refine ⟨⟨?_, ?_⟩, ⟨?_, ?_⟩, ⟨?_, ?_⟩, ⟨?_, ?_⟩⟩
  · rw [volumeUpdate_volume]; simp only [if_true]; split_ifs <;> omega
  · exact volumeUpdate_isMuted _ (Or.inl rfl)
  · rw [volumeUpdate_volume]; simp only [Bool.false_eq_true, if_false, if_true]
    split_ifs <;> omega
  · exact volumeUpdate_isMuted _ (Or.inr rfl)
  · rw [RC5Update_some, show rc5Body ⟨t, 0x10, 16⟩ s = volUpBlock s from rfl]
    show (volUpBlock s).volume = _
    rw [volUpBlock_volume]; split_ifs <;> omega
  · rw [RC5Update_some, show rc5Body ⟨t, 0x10, 16⟩ s = volUpBlock s from rfl]
    exact volUpBlock_isMuted s
  · rw [RC5Update_some, show rc5Body ⟨t, 0x10, 17⟩ s = volDownBlock s from rfl]
    show (volDownBlock s).volume = _
    rw [volDownBlock_volume]; split_ifs <;> omega
  · rw [RC5Update_some, show rc5Body ⟨t, 0x10, 17⟩ s = volDownBlock s from rfl]
    exact volDownBlock_isMuted s

theorem adjustVolume_step_witness :
    (-447 ≤ (mute (setup none (some (-5)))).volume ∧ (mute (setup none (some (-5)))).volume ≤ 0) ∧
    ((RC5Update (some ⟨1, 0x10, 16⟩) (mute (setup none (some (-5))))).volume = -4 ∧
      (RC5Update (some ⟨1, 0x10, 16⟩) (mute (setup none (some (-5))))).isMuted = false) ∧
    ((RC5Update (some ⟨1, 0x10, 17⟩) (mute (setup none (some (-5))))).volume = -6 ∧
      (RC5Update (some ⟨1, 0x10, 17⟩) (mute (setup none (some (-5))))).isMuted = false) :=
  ⟨⟨by decide, by decide⟩,
    (adjustVolume_step (mute (setup none (some (-5)))) 1 (by decide) (by decide)).2.2⟩

/-- C3 (source wrap-around). For a state with source `s` in [1, 4]:
`sourceUpdate` with the right-turn flag latched yields source 1 when `s = 4` and
`s + 1` otherwise; with only the left-turn flag latched it yields source 4 when
`s = 1` and `s - 1` otherwise; in both cases `oldsource` becomes `s`. -/
theorem source_wraparound (s : Globals) (now : Nat) (h1 : 1 ≤ s.source) (h4 : s.source ≤ 4) :
    ((sourceUpdate now { s with turnedRightFlag := true }).source
        = (if s.source = 4 then 1 else s.source + 1) ∧
      (sourceUpdate now { s with turnedRightFlag := true }).oldsource = s.source) ∧
    ((sourceUpdate now { s with turnedRightFlag := false, turnedLeftFlag := true }).source
        = (if s.source = 1 then 4 else s.source - 1) ∧
      (sourceUpdate now { s with turnedRightFlag := false, turnedLeftFlag := true }).oldsource
        = s.source) := by
  refine ⟨⟨?_, ?_⟩, ⟨?_, ?_⟩⟩
  · rw [sourceUpdate_right _ _ rfl]
    simp
    split_ifs <;> omega
  · rw [sourceUpdate_right _ _ rfl]
    simp
  · rw [sourceUpdate_left _ _ rfl rfl]
    cases hb : s.backlight <;> simp [hb] <;> split_ifs <;> omega
  · rw [sourceUpdate_left _ _ rfl rfl]
    cases hb : s.backlight <;> simp [hb]

theorem source_wraparound_witness :
    (1 ≤ (setup (some 4) none).source ∧ (setup (some 4) none).source ≤ 4) ∧
    ((sourceUpdate 1000 { setup (some 4) none with turnedRightFlag := true }).source = 1 ∧
      (sourceUpdate 1000 { setup (some 4) none with turnedRightFlag := true }).oldsource = 4) ∧
    ((sourceUpdate 1000 { setup (some 4) none with
        turnedRightFlag := false, turnedLeftFlag := true }).source = 3 ∧
      (sourceUpdate 1000 { setup (some 4) none with
        turnedRightFlag := false, turnedLeftFlag := true }).oldsource = 4) :=
  ⟨⟨by decide, by decide⟩, source_wraparound (setup (some 4) none) 1000 (by decide) (by decide)⟩

theorem lastMuses_unMute (s : Globals) :
    lastMuses (unMute s) = some (.musesSetVolume s.volume s.volume) := by
  cases hb : s.backlight <;>
    simp [lastMuses, unMute, setIO, setVolume, emit, hb, Cmd.isMuses]

theorem toggleMute_twice (s : Globals) (h : s.isMuted = false) :
    toggleMute (toggleMute s) = unMute (mute s) := by
  simp [toggleMute, h]

/-- C4 (mute preserves volume). `mute` keeps the volume, sets `isMuted` and
sends `Muses.mute()` to the volume chip (followed only by display calls);
`mute` then `unMute` ends with the same volume, `isMuted` false and
`Muses.setVolume(v, v)` as the last command the volume chip received; from an
unmuted state two `toggleMute` calls are exactly `mute` then `unMute`. In the
scenario of the specification, ten remote increments from the start-up volume
-447 give -437, one `toggleMute` mutes with the volume still -437 and the chip
muted, a second one unmutes and sends `Muses.setVolume(-437, -437)`. -/
theorem mute_preserves_volume (s : Globals) :
    ((mute s).volume = s.volume ∧ (mute s).isMuted = true ∧
      (mute s).out = [.tftSetFreeFont .FSS24, .tftSetTextSize 1, .tftDrawString .muted 160 120,
        .tftSetFreeFont .FSS18, .tftSetTextSize 2, .musesMute] ++ s.out ∧
      lastMuses (mute s) = some .musesMute) ∧
    ((unMute (mute s)).volume = s.volume ∧ (unMute (mute s)).isMuted = false ∧
      lastMuses (unMute (mute s)) = some (.musesSetVolume s.volume s.volume)) ∧
    toggleMute (toggleMute { s with isMuted := false }) = unMute (mute { s with isMuted := false }) ∧
    (runAdj (List.replicate 10 (.remoteUp 0)) (setup none none)).volume = -437 ∧
    ((toggleMute (runAdj (List.replicate 10 (.remoteUp 0)) (setup none none))).isMuted = true ∧
      (toggleMute (runAdj (List.replicate 10 (.remoteUp 0)) (setup none none))).volume = -437 ∧
      lastMuses (toggleMute (runAdj (List.replicate 10 (.remoteUp 0)) (setup none none)))
        = some .musesMute) ∧
    ((toggleMute (toggleMute
        (runAdj (List.replicate 10 (.remoteUp 0)) (setup none none)))).isMuted = false ∧
      (toggleMute (toggleMute
        (runAdj (List.replicate 10 (.remoteUp 0)) (setup none none)))).volume = -437 ∧
      lastMuses (toggleMute (toggleMute
        (runAdj (List.replicate 10 (.remoteUp 0)) (setup none none))))
        = some (.musesSetVolume (-437) (-437))) := by
  refine ⟨⟨rfl, rfl, rfl, rfl⟩, ⟨?_, ?_, ?_⟩, ?_, ?_, ?_, ?_⟩
  · simp
  · simp
  · rw [lastMuses_unMute]; rfl
  · exact toggleMute_twice _ rfl
  · decide
  · decide
  · decide

/-! ## Remote toggle-bit debounce -/

theorem toggleGated_cases {a c : Nat} (h : toggleGated a c = true) :
    (a = 16 ∧ (c = 1 ∨ c = 3 ∨ c = 7 ∨ c = 8 ∨ c = 13 ∨ c = 59)) ∨ (a = 20 ∧ c = 53) := by
  simp [toggleGated] at h
  omega

theorem rc5Body_stale (t a c : Nat) (s : Globals) (hg : toggleGated a c = true)
    (h : s.oldtoggle = t) : rc5Body ⟨t, a, c⟩ s = s := by
  rcases toggleGated_cases hg with ⟨rfl, hc⟩ | ⟨rfl, rfl⟩
  · rcases hc with rfl | rfl | rfl | rfl | rfl | rfl <;> simp [rc5Body, h]
  · simp [rc5Body, h]

theorem rc5Body_fresh (t a c : Nat) (s : Globals) (hg : toggleGated a c = true)
    (h : s.oldtoggle ≠ t) : rc5Body ⟨t, a, c⟩ s = gatedAction a c s := by
  rcases toggleGated_cases hg with ⟨rfl, hc⟩ | ⟨rfl, rfl⟩
  · rcases hc with rfl | rfl | rfl | rfl | rfl | rfl <;> simp [rc5Body, gatedAction, h]
  · simp [rc5Body, gatedAction, h]

/-- C5 (a repeated toggle bit is ignored). For every state, every toggle bit
`t` and every toggle-gated command, polling the same remote event twice in a
row with `RC5Update` gives exactly the state reached after polling it once:
no global changes and no library call is added to `out`. -/
theorem toggle_repeat_noop (s : Globals) (t a c : Nat) (hg : toggleGated a c = true) :
    RC5Update (some ⟨t, a, c⟩) (RC5Update (some ⟨t, a, c⟩) s) = RC5Update (some ⟨t, a, c⟩) s := by
  rw [RC5Update_some ⟨t, a, c⟩ (RC5Update (some ⟨t, a, c⟩) s)]
  rw [rc5Body_stale t a c _ hg (by rw [RC5Update_some])]
  rw [RC5Update_some]

theorem toggle_repeat_noop_witness :
    RC5Update (some ⟨1, 0x10, 13⟩) (RC5Update (some ⟨1, 0x10, 13⟩) (setup none none))
      = RC5Update (some ⟨1, 0x10, 13⟩) (setup none none) :=
  toggle_repeat_noop (setup none none) 1 0x10 13 (by decide)

/-! ## Fresh presses and remote volume -/

theorem setVolume_out_lt (s : Globals) : s.out.length < (setVolume s).out.length := by
  rw [setVolume_out]; simp; omega

theorem setIO_out_lt (s : Globals) : s.out.length < ( setIO s).out.length := by
  cases hm : s.isMuted <;> cases hb : s.backlight <;>
    simp [ setIO, emit, hm, hb, setVolume_out] <;> omega

theorem unMute_out_lt (s : Globals) : s.out.length < (unMute s).out.length := by
  cases hb : s.backlight <;>
    simp [unMute, setIO, emit, hb, setVolume_out] <;> omega

theorem selectBlock_eq (n : Nat) (s : Globals) :
    selectBlock n s =
      setIO { (if !s.backlight then unMute s else s) with
        oldsource := (if !s.backlight then unMute s else s).source, source := n } := rfl

theorem selectBlock_out_lt (n : Nat) (s : Globals) :
    s.out.length < (selectBlock n s).out.length := by
  have h1 : s.out.length ≤ (if !s.backlight then unMute s else s).out.length := by
    split
    · exact le_of_lt (unMute_out_lt s)
    · exact le_refl _
  rw [selectBlock_eq]
  exact lt_of_le_of_lt h1 ( setIO_out_lt { (if !s.backlight then unMute s else s) with
    oldsource := (if !s.backlight then unMute s else s).source, source := n })

theorem toggleMute_out_lt (s : Globals) : s.out.length < (toggleMute s).out.length := by
  cases hm : s.isMuted
  · simp [toggleMute, hm, mute_out]; omega
  · simp only [toggleMute, hm, if_true]; exact unMute_out_lt s

theorem displayToggleBlock_out_lt (s : Globals) :
    s.out.length < (displayToggleBlock s).out.length := by
  cases hb : s.backlight <;> simp [displayToggleBlock, hb]

theorem gatedAction_out_lt (a c : Nat) (s : Globals) (hg : toggleGated a c = true) :
    s.out.length < (gatedAction a c s).out.length := by
  rcases toggleGated_cases hg with ⟨rfl, hc⟩ | ⟨rfl, rfl⟩
  · rcases hc with rfl | rfl | rfl | rfl | rfl | rfl <;>
      simp only [gatedAction, if_true] <;>
      first
        | exact selectBlock_out_lt _ s
        | exact toggleMute_out_lt s
        | exact displayToggleBlock_out_lt s
  · exact selectBlock_out_lt 3 s


theorem toggleMute_isMuted (s : Globals) : (toggleMute s).isMuted = !s.isMuted := by
  cases hm : s.isMuted <;> simp [toggleMute, hm]

theorem displayToggleBlock_backlight (s : Globals) :
    (displayToggleBlock s).backlight = !s.backlight := by
  cases hb : s.backlight <;> simp [displayToggleBlock, hb]

theorem RC5Update_fresh (s : Globals) (t a c : Nat) (hg : toggleGated a c = true)
    (h : s.oldtoggle ≠ t) :
    RC5Update (some ⟨t, a, c⟩) s = { gatedAction a c s with oldtoggle := t } := by
  rw [RC5Update_some, rc5Body_fresh t a c s hg h]

/-- C6, as amended (fresh presses both act). For every state whose last-seen
toggle bit differs from `t1`, and `t1 ≠ t2`, two consecutive remote events with
the same toggle-gated command and toggle bits `t1`, `t2` are both executed:
each one applies the command's action, issues at least one library call and
records its toggle bit. Two mute events flip `isMuted` twice, two display
events flip `backlight` twice. -/
theorem fresh_presses_execute (s : Globals) (t1 t2 a c : Nat) (hg : toggleGated a c = true)
    (h0 : s.oldtoggle ≠ t1) (h12 : t1 ≠ t2) :
    (RC5Update (some ⟨t1, a, c⟩) s = { gatedAction a c s with oldtoggle := t1 } ∧
      s.out.length < (RC5Update (some ⟨t1, a, c⟩) s).out.length) ∧
    (RC5Update (some ⟨t2, a, c⟩) (RC5Update (some ⟨t1, a, c⟩) s)
        = { gatedAction a c (RC5Update (some ⟨t1, a, c⟩) s) with oldtoggle := t2 } ∧
      (RC5Update (some ⟨t1, a, c⟩) s).out.length
        < (RC5Update (some ⟨t2, a, c⟩) (RC5Update (some ⟨t1, a, c⟩) s)).out.length) ∧
    ((RC5Update (some ⟨t1, 0x10, 13⟩) s).isMuted = !s.isMuted ∧
      (RC5Update (some ⟨t2, 0x10, 13⟩) (RC5Update (some ⟨t1, 0x10, 13⟩) s)).isMuted
        = s.isMuted) ∧
    ((RC5Update (some ⟨t1, 0x10, 59⟩) s).backlight = !s.backlight ∧
      (RC5Update (some ⟨t2, 0x10, 59⟩) (RC5Update (some ⟨t1, 0x10, 59⟩) s)).backlight
        = s.backlight) := by
  have fresh2 : ∀ a c, (RC5Update (some ⟨t1, a, c⟩) s).oldtoggle ≠ t2 := by
    intro a c
    rw [RC5Update_some]
    exact h12
  refine ⟨⟨RC5Update_fresh s t1 a c hg h0, ?_⟩, ⟨RC5Update_fresh _ t2 a c hg (fresh2 a c), ?_⟩,
    ⟨?_, ?_⟩, ⟨?_, ?_⟩⟩
  · rw [RC5Update_fresh s t1 a c hg h0]
    exact gatedAction_out_lt a c s hg
  · rw [RC5Update_fresh _ t2 a c hg (fresh2 a c)]
    exact gatedAction_out_lt a c _ hg
  · rw [RC5Update_fresh s t1 16 13 rfl h0]
    exact toggleMute_isMuted s
  · rw [RC5Update_fresh _ t2 16 13 rfl (fresh2 16 13), RC5Update_fresh s t1 16 13 rfl h0]
    show (toggleMute { toggleMute s with oldtoggle := t1 }).isMuted = s.isMuted
    rw [toggleMute_isMuted]
    show (!(toggleMute s).isMuted) = s.isMuted
    rw [toggleMute_isMuted]; simp
  · rw [RC5Update_fresh s t1 16 59 rfl h0]
    exact displayToggleBlock_backlight s
  · rw [RC5Update_fresh _ t2 16 59 rfl (fresh2 16 59), RC5Update_fresh s t1 16 59 rfl h0]
    show (displayToggleBlock { displayToggleBlock s with oldtoggle := t1 }).backlight = s.backlight
    rw [displayToggleBlock_backlight]
    show (!(displayToggleBlock s).backlight) = s.backlight
    rw [displayToggleBlock_backlight]; simp

theorem fresh_presses_execute_witness :
    (RC5Update (some ⟨1, 0x10, 13⟩) (setup none none)).isMuted = true ∧
    (RC5Update (some ⟨0, 0x10, 13⟩) (RC5Update (some ⟨1, 0x10, 13⟩) (setup none none))).isMuted
      = false :=
  ⟨(fresh_presses_execute (setup none none) 1 0 0x10 13 (by decide) (by decide)
      (by decide)).2.2.1.1,
   (fresh_presses_execute (setup none none) 1 0 0x10 13 (by decide) (by decide)
      (by decide)).2.2.1.2⟩

/-- C6 as stated fails. After start-up the last-seen toggle bit is 0, so a
first mute event with toggle bit 0 changes nothing, and the pair of mute events
with toggle bits 0, 1 flips `isMuted` once only; the same happens to
`backlight` with two display events. Likewise, in the state left by a mute
event with toggle bit 1, the pair of mute events with toggle bits 1, 0 flips
`isMuted` once only, the first of the two being a repeat. -/
theorem fresh_presses_counterexample :
    ((setup none none).oldtoggle = 0 ∧ (setup none none).isMuted = false ∧
      RC5Update (some ⟨0, 0x10, 13⟩) (setup none none) = setup none none ∧
      (RC5Update (some ⟨1, 0x10, 13⟩)
        (RC5Update (some ⟨0, 0x10, 13⟩) (setup none none))).isMuted = true) ∧
    ((setup none none).backlight = true ∧
      RC5Update (some ⟨0, 0x10, 59⟩) (setup none none) = setup none none ∧
      (RC5Update (some ⟨1, 0x10, 59⟩)
        (RC5Update (some ⟨0, 0x10, 59⟩) (setup none none))).backlight = false) ∧
    ((RC5Update (some ⟨1, 0x10, 13⟩) (setup none none)).isMuted = true ∧
      RC5Update (some ⟨1, 0x10, 13⟩) (RC5Update (some ⟨1, 0x10, 13⟩) (setup none none))
        = RC5Update (some ⟨1, 0x10, 13⟩) (setup none none) ∧
      (RC5Update (some ⟨0, 0x10, 13⟩) (RC5Update (some ⟨1, 0x10, 13⟩)
        (RC5Update (some ⟨1, 0x10, 13⟩) (setup none none)))).isMuted = false) := by
  decide

theorem RC5Update_up_volume (t : Nat) (s : Globals) :
    (RC5Update (some ⟨t, 0x10, 16⟩) s).volume = if s.volume < 0 then s.volume + 1 else s.volume :=
  volUpBlock_volume s

theorem RC5Update_down_volume (t : Nat) (s : Globals) :
    (RC5Update (some ⟨t, 0x10, 17⟩) s).volume
      = if s.volume > -447 then s.volume - 1 else s.volume :=
  volDownBlock_volume s

theorem repeatRC5_up_volume (t n : Nat) (s : Globals) :
    (repeatRC5 ⟨t, 0x10, 16⟩ n s).volume
      = if s.volume ≤ 0 then min 0 (s.volume + n) else s.volume := by
  induction n generalizing s with
  | zero =>
    simp only [repeatRC5, Nat.cast_zero, add_zero, sub_zero]
    split_ifs <;> omega
  | succ n ih =>
    rw [repeatRC5, ih, RC5Update_up_volume]
    push_cast
    split_ifs <;> omega

theorem repeatRC5_down_volume (t n : Nat) (s : Globals) :
    (repeatRC5 ⟨t, 0x10, 17⟩ n s).volume
      = if -447 ≤ s.volume then max (-447) (s.volume - n) else s.volume := by
  induction n generalizing s with
  | zero =>
    simp only [repeatRC5, Nat.cast_zero, add_zero, sub_zero]
    split_ifs <;> omega
  | succ n ih =>
    rw [repeatRC5, ih, RC5Update_down_volume]
    push_cast
    split_ifs <;> omega

/-- C7 (remote volume commands are not toggle-gated). For every state and
every toggle bit `t`, equal to the last-seen one or not, `RC5Update` on
(0x10, 16) raises the volume by 1 when it is below 0 and on (0x10, 17) lowers
it by 1 when it is above -447; `n` events in a row with the same toggle bit
move a volume `v ≤ 0` to `min 0 (v + n)`, respectively a volume `v ≥ -447` to
`max (-447) (v - n)`. -/
theorem remote_volume_not_gated (s : Globals) (t n : Nat) :
    (RC5Update (some ⟨t, 0x10, 16⟩) s).volume
      = (if s.volume < 0 then s.volume + 1 else s.volume) ∧
    (RC5Update (some ⟨t, 0x10, 17⟩) s).volume
      = (if s.volume > -447 then s.volume - 1 else s.volume) ∧
    (repeatRC5 ⟨t, 0x10, 16⟩ n s).volume
      = (if s.volume ≤ 0 then min 0 (s.volume + n) else s.volume) ∧
    (repeatRC5 ⟨t, 0x10, 17⟩ n s).volume
      = (if -447 ≤ s.volume then max (-447) (s.volume - n) else s.volume) :=
  ⟨RC5Update_up_volume t s, RC5Update_down_volume t s, repeatRC5_up_volume t n s,
    repeatRC5_down_volume t n s⟩

/-! ## Mode time-out -/

theorem subU32_eq (a b : Nat) :
    ((subU32 a b : Nat) : Int) = ((a : Int) - (b : Int)) % 4294967296 := by
  unfold subU32 U32
  omega

theorem subU32_mod_right (a b : Nat) : subU32 a (b % U32) = subU32 a b := by
  unfold subU32 U32
  omega

theorem RotaryUpdate_select_idle (s : Globals) (tSrc now : Nat) (hio : s.state = STATE_IO)
    (hr : s.turnedRightFlag = false) (hl : s.turnedLeftFlag = false) :
    RotaryUpdate tSrc now s =
      if ((now : Int) - (s.milOnButton : Int)) % 4294967296 > 5000
      then { s with state := STATE_RUN } else s := by
  have hne : ¬ (s.state = STATE_RUN) := by rw [hio]; decide
  unfold RotaryUpdate
  rw [if_neg hne, if_pos hio]
  simp only [sourceUpdate_idle tSrc s hr hl]
  have h := subU32_eq now s.milOnButton
  have h5 : TIME_EXITSELECT * 1000 = 5000 := rfl
  rw [h5]
  by_cases hc : subU32 now s.milOnButton > 5000
  · rw [if_pos hc, if_pos (by omega)]
  · rw [if_neg hc, if_neg (by omega)]

theorem buttonCallback_enter (r : Globals) (d t0 : Nat) (hrun : r.state = STATE_RUN)
    (hd : 50 < d) (hd2 : d < 2147483648) :
    buttonCallback d t0 r = { r with state := STATE_IO, milOnButton := t0 % U32 } := by
  have h : toInt32 d > 50 := by
    unfold toInt32 U32
    split_ifs <;> omega
  unfold buttonCallback
  simp only [h, hrun, if_true]

/-- C8 (mode time-out). In select mode with no knob turn latched,
`RotaryUpdate` at clock reading `now` returns to run mode exactly when
`(now - milOnButton) mod 2^32` exceeds 5000, and otherwise changes nothing.
Hence after a button press (longer than 50 ms, below 2^31 ms) entered select
mode at reading `t0` from a run-mode state with no turn latched, a dispatch at
reading `now` ends in run mode exactly when `(now - t0) mod 2^32 > 5000`: at
`t0 + 5000` the mode is still select, at `t0 + 5001` it is run. -/
theorem mode_timeout (s r : Globals) (tSrc now d t0 : Nat)
    (hio : s.state = STATE_IO)
    (hr : s.turnedRightFlag = false) (hl : s.turnedLeftFlag = false)
    (hrun : r.state = STATE_RUN)
    (hrr : r.turnedRightFlag = false) (hrl : r.turnedLeftFlag = false)
    (hd : 50 < d) (hd2 : d < 2147483648) :
    (RotaryUpdate tSrc now s =
      if ((now : Int) - (s.milOnButton : Int)) % 4294967296 > 5000
      then { s with state := STATE_RUN } else s) ∧
    ((RotaryUpdate tSrc now s).state = STATE_RUN
      ↔ ((now : Int) - (s.milOnButton : Int)) % 4294967296 > 5000) ∧
    ((RotaryUpdate tSrc now s).state = STATE_IO
      ↔ ¬ ((now : Int) - (s.milOnButton : Int)) % 4294967296 > 5000) ∧
    ((RotaryUpdate tSrc now (buttonCallback d t0 r)).state = STATE_RUN
      ↔ ((now : Int) - (t0 : Int)) % 4294967296 > 5000) ∧
    (RotaryUpdate tSrc (t0 + 5000) (buttonCallback d t0 r)).state = STATE_IO ∧
    (RotaryUpdate tSrc (t0 + 5001) (buttonCallback d t0 r)).state = STATE_RUN := by
  have hne : STATE_IO ≠ STATE_RUN := by decide
  have key := RotaryUpdate_select_idle s tSrc now hio hr hl
  have hb := buttonCallback_enter r d t0 hrun hd hd2
  have keyb : ∀ t, RotaryUpdate tSrc t (buttonCallback d t0 r) =
      if ((t : Int) - (t0 : Int)) % 4294967296 > 5000
      then { buttonCallback d t0 r with state := STATE_RUN } else buttonCallback d t0 r := by
    intro t
    have h := RotaryUpdate_select_idle (buttonCallback d t0 r) tSrc t
      (by rw [hb]) (by rw [hb]; exact hrr) (by rw [hb]; exact hrl)
    rw [h]
    have hm : ((buttonCallback d t0 r).milOnButton : Int) = ((t0 % U32 : Nat) : Int) := by
      rw [hb]
    rw [hm]
    have e : ((t : Int) - ((t0 % U32 : Nat) : Int)) % 4294967296
        = ((t : Int) - (t0 : Int)) % 4294967296 := by
      unfold U32; omega
    rw [e]
  have hbio : (buttonCallback d t0 r).state = STATE_IO := by rw [hb]
  refine ⟨key, ?_, ?_, ?_, ?_, ?_⟩
  · rw [key]; split_ifs with h
    · simp [h]
    · simp [h, hio, hne]
  · rw [key]; split_ifs with h
    · simp [h, hne.symm]
    · simp [h, hio]
  · rw [keyb]; split_ifs with h
    · simp [h]
    · simp [h, hbio, hne]
  · rw [keyb]
    have : ¬ (((t0 + 5000 : Nat) : Int) - (t0 : Int)) % 4294967296 > 5000 := by omega
    rw [if_neg this]; exact hbio
  · rw [keyb]
    have : (((t0 + 5001 : Nat) : Int) - (t0 : Int)) % 4294967296 > 5000 := by omega
    rw [if_pos this]


theorem mode_timeout_witness :
    ((50 < 60 ∧ 60 < 2147483648) ∧ (setup none none).state = STATE_RUN) ∧
    ((RotaryUpdate 0 6001 { setup none none with state := STATE_IO, milOnButton := 1000 }).state
        = STATE_RUN ↔ (((6001 : Nat) : Int) - ((1000 : Nat) : Int)) % 4294967296 > 5000) ∧
    (RotaryUpdate 0 (1000 + 5000) (buttonCallback 60 1000 (setup none none))).state = STATE_IO ∧
    (RotaryUpdate 0 (1000 + 5001) (buttonCallback 60 1000 (setup none none))).state
      = STATE_RUN :=
  ⟨⟨⟨by decide, by decide⟩, by decide⟩,
   (mode_timeout { setup none none with state := STATE_IO, milOnButton := 1000 }
      (setup none none) 0 6001 60 1000 (by decide) (by decide) (by decide) (by decide)
      (by decide) (by decide) (by decide) (by decide)).2.1,
   (mode_timeout { setup none none with state := STATE_IO, milOnButton := 1000 }
      (setup none none) 0 6001 60 1000 (by decide) (by decide) (by decide) (by decide)
      (by decide) (by decide) (by decide) (by decide)).2.2.2.2.1,
   (mode_timeout { setup none none with state := STATE_IO, milOnButton := 1000 }
      (setup none none) 0 6001 60 1000 (by decide) (by decide) (by decide) (by decide)
      (by decide) (by decide) (by decide) (by decide)).2.2.2.2.2⟩

/-! ## Button press threshold -/

theorem buttonCallback_below (s : Globals) (d now : Nat) (hd2 : d < 2147483648) :
    buttonCallback d now s =
      if 50 < d ∧ s.state = STATE_RUN
      then { s with state := STATE_IO, milOnButton := now % U32 } else s := by
  have h : toInt32 d = (d : Int) := by
    unfold toInt32 U32
    split_ifs <;> omega
  unfold buttonCallback
  simp only [h]
  by_cases h50 : 50 < d
  · have : (d : Int) > 50 := by omega
    by_cases hs : s.state = STATE_RUN <;> simp [this, h50, hs]
  · have : ¬ (d : Int) > 50 := by omega
    simp [this, h50]

theorem buttonCallback_above (s : Globals) (d now : Nat) (hd : 2147483648 ≤ d)
    (hd2 : d < 4294967296) : buttonCallback d now s = s := by
  have h : ¬ toInt32 d > 50 := by
    unfold toInt32 U32
    split_ifs <;> omega
  unfold buttonCallback
  simp only [h, if_false]

/-- C9 fails on the code for long presses. The duration 2147483648 ms is a
valid `unsigned long` above 50, yet `buttonCallback` in run mode leaves the
state unchanged: `int _duration = duration` makes it negative. -/
theorem buttonCallback_long_press_ignored :
    ((50 : Nat) < 2147483648 ∧ (2147483648 : Nat) < U32) ∧
    (setup none none).state = STATE_RUN ∧
    buttonCallback 2147483648 1000 (setup none none) = setup none none ∧
    (buttonCallback 2147483648 1000 (setup none none)).state ≠ STATE_IO := by
  decide

/-! ## Start-up -/

theorem setup_volume (src : Option Nat) (vol : Option Int) :
    (setup src vol).volume =
      if toInt16 (vol.getD (-447)) > 0 then -447 else toInt16 (vol.getD (-447)) := by
  unfold setup
  simp only [ setIO_volume, setVolume_volume]
  split_ifs <;> rfl

theorem setup_source (src : Option Nat) (vol : Option Int) :
    (setup src vol).source = toUInt8 (src.getD 1) := by
  unfold setup
  simp only [ setIO_source, setVolume_source]
  split_ifs <;> rfl

theorem setup_volume_in_range (src : Option Nat) (v : Int)
    (hlo : -447 ≤ v) (hhi : v ≤ 0) : (setup src (some v)).volume = v := by
  rw [setup_volume]
  simp only [Option.getD_some]
  unfold toInt16
  split_ifs <;> omega

theorem setup_defaults : (setup none none).volume = -447 ∧ (setup none none).source = 1 := by
  decide

theorem setup_volume_le_zero (src : Option Nat) (vol : Option Int) :
    (setup src vol).volume ≤ 0 := by
  rw [setup_volume]
  split_ifs <;> omega

/-- C10 fails on the code below the range. With -1000 stored under
`"VOLUME"` (a valid 32-bit int), `setup` establishes volume -1000, outside
[-447, 0], and sends `Muses.setVolume(-1000, -1000)`: only `volume > 0` is
checked. -/
theorem setup_keeps_volume_below_range :
    ((-2147483648 : Int) ≤ -1000 ∧ (-1000 : Int) ≤ 2147483647) ∧
    (setup (some 1) (some (-1000))).volume = -1000 ∧
    ¬ (-447 ≤ (setup (some 1) (some (-1000))).volume) ∧
    lastMuses (setup (some 1) (some (-1000))) = some (.musesSetVolume (-1000) (-1000)) := by
  decide

/-! ## Observations on the trace of library calls -/

theorem setVolume_bank (s : Globals) (p : Int) : bankLine (setVolume s).out p = bankLine s.out p := by
  cases hb : s.backlight <;> simp [setVolume_out, hb, bankLine]

theorem setVolume_lastMuses (s : Globals) :
    lastMuses (setVolume s) = some (.musesSetVolume s.volume s.volume) := by
  cases hb : s.backlight <;> simp [lastMuses, setVolume_out, hb, Cmd.isMuses]

theorem setVolume_lastPutVolume (s : Globals) : lastPutVolume (setVolume s).out = some s.volume := by
  cases hb : s.backlight <;> simp [setVolume_out, hb, lastPutVolume]

theorem setVolume_lastPutSource (s : Globals) :
    lastPutSource (setVolume s).out = lastPutSource s.out := by
  cases hb : s.backlight <;> simp [setVolume_out, hb, lastPutSource]

theorem setIO_bank (s : Globals) (p : Int) :
    bankLine ( setIO s).out p =
      if p = (s.source : Int) - 1 then true
      else if p = (s.oldsource : Int) - 1 then false else bankLine s.out p := by
  cases hm : s.isMuted <;> cases hb : s.backlight <;>
    simp [ setIO, emit, hm, hb, setVolume_out, bankLine]

theorem setIO_lastMuses (s : Globals) :
    lastMuses ( setIO s) =
      if s.isMuted then some (.musesSetVolume s.volume s.volume) else lastMuses s := by
  cases hm : s.isMuted <;> cases hb : s.backlight <;>
    simp [lastMuses, setIO, emit, hm, hb, setVolume_out, Cmd.isMuses]

theorem setIO_lastPutVolume (s : Globals) :
    lastPutVolume ( setIO s).out =
      if s.isMuted then some s.volume else lastPutVolume s.out := by
  cases hm : s.isMuted <;> cases hb : s.backlight <;>
    simp [ setIO, emit, hm, hb, setVolume_out, lastPutVolume]

theorem setIO_lastPutSource (s : Globals) : lastPutSource ( setIO s).out = some s.source := by
  cases hm : s.isMuted <;> cases hb : s.backlight <;>
    simp [ setIO, emit, hm, hb, setVolume_out, lastPutSource]

theorem unMute_bank (s : Globals) (p : Int) :
    bankLine (unMute s).out p =
      if p = (s.source : Int) - 1 then true
      else if p = (s.oldsource : Int) - 1 then false else bankLine s.out p := by
  cases hb : s.backlight <;>
    simp [unMute, setIO, emit, hb, setVolume_out, bankLine]

theorem unMute_lastPutVolume (s : Globals) : lastPutVolume (unMute s).out = some s.volume := by
  cases hb : s.backlight <;>
    simp [unMute, setIO, emit, hb, setVolume_out, lastPutVolume]

theorem unMute_lastPutSource (s : Globals) : lastPutSource (unMute s).out = some s.source := by
  cases hb : s.backlight <;>
    simp [unMute, setIO, emit, hb, setVolume_out, lastPutSource]

theorem mute_bank (s : Globals) (p : Int) : bankLine (mute s).out p = bankLine s.out p := by
  simp [mute_out, bankLine]

theorem mute_lastMuses (s : Globals) : lastMuses (mute s) = some .musesMute := rfl

theorem mute_lastPutVolume (s : Globals) : lastPutVolume (mute s).out = lastPutVolume s.out := by
  simp [mute_out, lastPutVolume]

theorem mute_lastPutSource (s : Globals) : lastPutSource (mute s).out = lastPutSource s.out := by
  simp [mute_out, lastPutSource]

/-! ## Invariants of the trace -/

theorem Inv_congr {s x : Globals} (h : Inv s) (ho : x.out = s.out) (hs : x.source = s.source)
    (hv : x.volume = s.volume) (hm : x.isMuted = s.isMuted) : Inv x := by
  obtain ⟨hb, hmu, hst⟩ := h
  refine ⟨?_, ?_, ?_⟩
  · intro p; rw [ho, hs]; exact hb p
  · intro h1
    have : lastMuses x = lastMuses s := by unfold lastMuses; rw [ho]
    rw [this]; exact hmu (by rw [← hm]; exact h1)
  · unfold StoreOK; rw [ho, hs, hv]; exact hst

theorem Inv_emit {s : Globals} (h : Inv s) (c : Cmd)
    (h1 : ∀ pin high, c ≠ .mcpWrite1 pin high) (h2 : c.isMuses = false)
    (h3 : ∀ v, c ≠ .putIntVOLUME v) (h4 : ∀ v, c ≠ .putUIntSOURCE v) : Inv (emit c s) := by
  obtain ⟨hb, hmu, hst⟩ := h
  refine ⟨?_, ?_, ?_⟩
  · intro p
    have : bankLine (emit c s).out p = bankLine s.out p := by
      cases c <;> simp_all [emit, bankLine]
    rw [this]; exact hb p
  · intro hm
    have : lastMuses (emit c s) = lastMuses s := by
      simp [lastMuses, emit, List.find?, h2]
    rw [this]; exact hmu hm
  · have e1 : lastPutVolume (emit c s).out = lastPutVolume s.out := by
      cases c <;> simp_all [emit, lastPutVolume]
    have e2 : lastPutSource (emit c s).out = lastPutSource s.out := by
      cases c <;> simp_all [emit, lastPutSource]
    unfold StoreOK; rw [e1, e2]; exact hst

theorem Inv_unMute {s : Globals} (h : Inv s) : Inv (unMute s) := by
  obtain ⟨hb, -, -⟩ := h
  refine ⟨?_, ?_, ?_⟩
  · intro p
    rw [unMute_bank, unMute_source]
    have := hb p
    split_ifs with h1 h2
    · simp [h1]
    · constructor
      · intro hf; cases hf
      · intro he; exact absurd he h1
    · rw [this]
  · intro hm; simp at hm
  · exact ⟨by rw [unMute_lastPutVolume, unMute_volume],
      by rw [unMute_lastPutSource, unMute_source]⟩

theorem Inv_mute {s : Globals} (h : Inv s) : Inv (mute s) := by
  obtain ⟨hb, -, hst⟩ := h
  refine ⟨?_, ?_, ?_⟩
  · intro p; rw [mute_bank, mute_source]; exact hb p
  · intro _; exact mute_lastMuses s
  · rw [StoreOK, mute_lastPutVolume, mute_lastPutSource, mute_volume, mute_source]; exact hst

theorem Inv_toggleMute {s : Globals} (h : Inv s) : Inv (toggleMute s) := by
  unfold toggleMute
  split
  · exact Inv_unMute h
  · exact Inv_mute h

/-- A call of `setVolume` made while `isMuted` is false keeps the invariants,
whatever volume was assigned just before. -/
theorem Inv_setVolume {s x : Globals} (h : Inv s) (hm : s.isMuted = false)
    (ho : x.out = s.out) (hs : x.source = s.source) (hxm : x.isMuted = s.isMuted) :
    Inv (setVolume x) := by
  obtain ⟨hb, -, hst⟩ := h
  refine ⟨?_, ?_, ?_⟩
  · intro p; rw [setVolume_bank, setVolume_source, ho, hs]; exact hb p
  · intro h1; rw [setVolume_isMuted, hxm, hm] at h1; cases h1
  · refine ⟨?_, ?_⟩
    · rw [setVolume_lastPutVolume, setVolume_volume]
    · rw [setVolume_lastPutSource, setVolume_source, ho, hs]; exact hst.2


/-- A call of `setIO` made when the only line that may be high is the one of
`oldsource`, and the stored volume is current, establishes the invariants. -/
theorem setIO_gives_Inv {y : Globals}
    (hb : ∀ p : Int, bankLine y.out p = true → p = (y.oldsource : Int) - 1)
    (hv : lastPutVolume y.out = some y.volume) : Inv ( setIO y) := by
  refine ⟨?_, ?_, ?_⟩
  · intro p
    rw [setIO_bank, setIO_source]
    have := hb p
    split_ifs with h1 h2
    · simp [h1]
    · constructor
      · intro hf; cases hf
      · intro he; exact absurd he h1
    · constructor
      · intro he; exact absurd (this he) h2
      · intro he; exact absurd he h1
  · intro hm; rw [setIO_isMuted] at hm; cases hm
  · refine ⟨?_, ?_⟩
    · rw [setIO_lastPutVolume, setIO_volume]
      split_ifs
      · rfl
      · exact hv
    · rw [setIO_lastPutSource, setIO_source]

theorem selectBlock_source (n : Nat) (s : Globals) : (selectBlock n s).source = n := by
  rw [selectBlock_eq, setIO_source]

theorem selectBlock_oldsource (n : Nat) (s : Globals) :
    (selectBlock n s).oldsource = s.source := by
  rw [selectBlock_eq, setIO_oldsource]
  cases hb : s.backlight <;> simp

theorem selectBlock_isMuted (n : Nat) (s : Globals) : (selectBlock n s).isMuted = false := by
  rw [selectBlock_eq, setIO_isMuted]

theorem selectBlock_state (n : Nat) (s : Globals) : (selectBlock n s).state = s.state := by
  rw [selectBlock_eq, setIO_state]
  cases hb : s.backlight <;> simp

theorem Inv_selectBlock {s : Globals} (h : Inv s) (n : Nat) : Inv (selectBlock n s) := by
  have hx : Inv (if !s.backlight then unMute s else s) := by
    split
    · exact Inv_unMute h
    · exact h
  rw [selectBlock_eq]
  exact setIO_gives_Inv (y := { (if !s.backlight then unMute s else s) with
      oldsource := (if !s.backlight then unMute s else s).source, source := n })
    (fun p => (hx.1 p).1) hx.2.2.1

theorem Inv_volUpBlock {s : Globals} (h : Inv s) : Inv (volUpBlock s) := by
  have hx : Inv (if s.isMuted then unMute s else s) ∧
      (if s.isMuted then unMute s else s).isMuted = false := by
    cases hm : s.isMuted
    · exact ⟨by simpa using h, by simpa using hm⟩
    · exact ⟨by simpa using Inv_unMute h, by simp⟩
  have key : ∀ x : Globals, Inv x → x.isMuted = false →
      Inv (if x.volume < 0 then setVolume { x with volume := x.volume + 1 } else x) := by
    intro x h1 h2
    split
    · exact Inv_setVolume (x := { x with volume := x.volume + 1 }) h1 h2 rfl rfl rfl
    · exact h1
  exact key _ hx.1 hx.2

theorem Inv_volDownBlock {s : Globals} (h : Inv s) : Inv (volDownBlock s) := by
  have hx : Inv (if s.isMuted then unMute s else s) ∧
      (if s.isMuted then unMute s else s).isMuted = false := by
    cases hm : s.isMuted
    · exact ⟨by simpa using h, by simpa using hm⟩
    · exact ⟨by simpa using Inv_unMute h, by simp⟩
  have key : ∀ x : Globals, Inv x → x.isMuted = false →
      Inv (if x.volume > -447 then setVolume { x with volume := x.volume - 1 } else x) := by
    intro x h1 h2
    split
    · exact Inv_setVolume (x := { x with volume := x.volume - 1 }) h1 h2 rfl rfl rfl
    · exact h1
  exact key _ hx.1 hx.2

theorem Inv_displayToggleBlock {s : Globals} (h : Inv s) : Inv (displayToggleBlock s) := by
  unfold displayToggleBlock
  split
  · exact Inv_emit (Inv_congr (x := { s with backlight := false }) h rfl rfl rfl rfl) _
      (by intro _ _ hc; cases hc) rfl (by intro _ hc; cases hc) (by intro _ hc; cases hc)
  · exact Inv_emit (Inv_congr (x := { s with backlight := true }) h rfl rfl rfl rfl) _
      (by intro _ _ hc; cases hc) rfl (by intro _ hc; cases hc) (by intro _ hc; cases hc)

theorem ite_pres (P : Globals → Prop) {c : Prop} [Decidable c] {a b : Globals}
    (ha : P a) (hb : P b) : P (if c then a else b) := by
  split
  · exact ha
  · exact hb

/-- A property that holds of the state and of every block of `RC5Update`
holds after the dispatch of any decoded event. -/
theorem rc5Body_cases (P : Globals → Prop) (e : RC5Event) (s : Globals) (hs : P s)
    (h1 : P (selectBlock 1 s)) (h2 : P (selectBlock 2 s)) (h3 : P (selectBlock 3 s))
    (h4 : P (selectBlock 4 s)) (hm : P (toggleMute s)) (hu : P (volUpBlock s))
    (hd : P (volDownBlock s)) (hb : P (displayToggleBlock s)) : P (rc5Body e s) := by
  unfold rc5Body
  exact ite_pres P
    (ite_pres P (ite_pres P h1 hs)
    (ite_pres P (ite_pres P h4 hs)
    (ite_pres P (ite_pres P h3 hs)
    (ite_pres P (ite_pres P h2 hs)
    (ite_pres P (ite_pres P hm hs)
    (ite_pres P hu
    (ite_pres P hd
    (ite_pres P (ite_pres P hb hs) hs))))))))
    (ite_pres P (ite_pres P (ite_pres P h3 hs) hs) hs)

theorem Inv_rc5Body {s : Globals} (h : Inv s) (e : RC5Event) : Inv (rc5Body e s) :=
  rc5Body_cases Inv e s h (Inv_selectBlock h 1) (Inv_selectBlock h 2) (Inv_selectBlock h 3)
    (Inv_selectBlock h 4) (Inv_toggleMute h) (Inv_volUpBlock h) (Inv_volDownBlock h)
    (Inv_displayToggleBlock h)

theorem Inv_RC5Update {s : Globals} (h : Inv s) (ev : Option RC5Event) :
    Inv (RC5Update ev s) := by
  cases ev with
  | none => exact h
  | some e =>
    rw [RC5Update_some]
    exact Inv_congr (Inv_rc5Body h e) rfl rfl rfl rfl

theorem Inv_volumeUpdate {s : Globals} (h : Inv s) : Inv (volumeUpdate s) := by
  rw [volumeUpdate_eq]
  split_ifs
  · exact Inv_congr (Inv_volUpBlock h) rfl rfl rfl rfl
  · exact Inv_congr (Inv_volDownBlock h) rfl rfl rfl rfl
  · exact h

theorem Inv_sourceUpdate {s : Globals} (h : Inv s) (now : Nat) : Inv (sourceUpdate now s) := by
  cases hr : s.turnedRightFlag
  · cases hl : s.turnedLeftFlag
    · rw [sourceUpdate_idle now s hr hl]; exact h
    · rw [sourceUpdate_left now s hr hl]
      have hy : ∀ y : Globals, y.oldsource = s.source → y.volume = s.volume →
          (y.out = s.out ∨ y.out = .digitalWriteBL true :: s.out) → Inv ( setIO y) := by
        intro y h1 h2 h3
        refine setIO_gives_Inv ?_ ?_
        · intro p
          rw [h1]
          rcases h3 with h3 | h3 <;> rw [h3]
          · exact (h.1 p).1
          · simpa [bankLine] using (h.1 p).1
        · rw [h2]
          rcases h3 with h3 | h3 <;> rw [h3]
          · exact h.2.2.1
          · simpa [lastPutVolume] using h.2.2.1
      refine Inv_congr (hy _ ?_ ?_ ?_) rfl rfl rfl rfl
      · cases hb : s.backlight <;> simp [hb]
      · cases hb : s.backlight <;> simp [hb]
      · cases hb : s.backlight <;> simp [hb, emit]
  · rw [sourceUpdate_right now s hr]
    exact Inv_congr (setIO_gives_Inv (y := { s with
        oldsource := s.source, milOnButton := now % U32,
        source := if s.source < 4 then s.source + 1 else 1 }) (fun p => (h.1 p).1) h.2.2.1)
      rfl rfl rfl rfl

theorem Inv_RotaryUpdate {s : Globals} (h : Inv s) (tSrc tChk : Nat) :
    Inv (RotaryUpdate tSrc tChk s) := by
  unfold RotaryUpdate
  simp only []
  split_ifs
  · exact Inv_volumeUpdate h
  · exact Inv_congr (Inv_sourceUpdate h tSrc) rfl rfl rfl rfl
  · exact Inv_sourceUpdate h tSrc
  · exact h

theorem Inv_knobCallback {s : Globals} (h : Inv s) (v : Int) : Inv (knobCallback v s) := by
  unfold knobCallback
  split_ifs
  · exact h
  · exact Inv_emit (Inv_congr (x := { s with turnedRightFlag := true }) h rfl rfl rfl rfl) _
      (by intro _ _ hc; cases hc) rfl (by intro _ hc; cases hc) (by intro _ hc; cases hc)
  · exact Inv_emit (Inv_congr (x := { s with turnedLeftFlag := true }) h rfl rfl rfl rfl) _
      (by intro _ _ hc; cases hc) rfl (by intro _ hc; cases hc) (by intro _ hc; cases hc)
  · exact Inv_emit h _
      (by intro _ _ hc; cases hc) rfl (by intro _ hc; cases hc) (by intro _ hc; cases hc)

theorem buttonCallback_cases (d now : Nat) (s : Globals) :
    buttonCallback d now s = s ∨
      buttonCallback d now s = { s with state := STATE_IO, milOnButton := now % U32 } := by
  unfold buttonCallback
  simp only []
  split_ifs
  · right; rfl
  · left; rfl
  · left; rfl

theorem Inv_buttonCallback {s : Globals} (h : Inv s) (d now : Nat) :
    Inv (buttonCallback d now s) := by
  rcases buttonCallback_cases d now s with hc | hc <;> rw [hc]
  · exact h
  · exact Inv_congr h rfl rfl rfl rfl

theorem Inv_step {s : Globals} (h : Inv s) (e : Event) : Inv (step e s) := by
  cases e with
  | knob v => exact Inv_knobCallback h v
  | button d now => exact Inv_buttonCallback h d now
  | remote ev => exact Inv_RC5Update h ev
  | rotary tSrc tChk => exact Inv_RotaryUpdate h tSrc tChk

theorem Inv_run {s : Globals} (h : Inv s) (es : List Event) : Inv (run es s) := by
  induction es generalizing s with
  | nil => exact h
  | cons e rest ih => exact ih (Inv_step h e)

theorem Inv_setup (src : Option Nat) (vol : Option Int) : Inv (setup src vol) := by
  have key : ∀ x : Globals, x.out = [.musesMute] → x.oldsource = 1 → x.isMuted = false →
      Inv { setIO (setVolume x) with isMuted := false } := by
    intro x ho hold hm
    refine Inv_congr (s := setIO (setVolume x)) (setIO_gives_Inv ?_ ?_) rfl rfl rfl (by simp)
    · intro p
      rw [setVolume_bank, ho, setVolume_oldsource, hold]
      simp [bankLine]
    · rw [setVolume_lastPutVolume, setVolume_volume]
  unfold setup
  simp only []
  split_ifs
  · exact key _ rfl rfl rfl
  · exact key _ rfl rfl rfl

/-! ## Source range, unrecognized events, direct selection, output bank -/

theorem volUpBlock_source (s : Globals) : (volUpBlock s).source = s.source := by
  cases hm : s.isMuted <;> simp [volUpBlock, hm] <;> split <;> simp
theorem volUpBlock_oldsource (s : Globals) : (volUpBlock s).oldsource = s.oldsource := by
  cases hm : s.isMuted <;> simp [volUpBlock, hm] <;> split <;> simp
theorem volUpBlock_state (s : Globals) : (volUpBlock s).state = s.state := by
  cases hm : s.isMuted <;> simp [volUpBlock, hm] <;> split <;> simp
theorem volDownBlock_source (s : Globals) : (volDownBlock s).source = s.source := by
  cases hm : s.isMuted <;> simp [volDownBlock, hm] <;> split <;> simp
theorem volDownBlock_oldsource (s : Globals) : (volDownBlock s).oldsource = s.oldsource := by
  cases hm : s.isMuted <;> simp [volDownBlock, hm] <;> split <;> simp
theorem volDownBlock_state (s : Globals) : (volDownBlock s).state = s.state := by
  cases hm : s.isMuted <;> simp [volDownBlock, hm] <;> split <;> simp
theorem toggleMute_source (s : Globals) : (toggleMute s).source = s.source := by
  cases hm : s.isMuted <;> simp [toggleMute, hm]
theorem toggleMute_oldsource (s : Globals) : (toggleMute s).oldsource = s.oldsource := by
  cases hm : s.isMuted <;> simp [toggleMute, hm]
theorem displayToggleBlock_source (s : Globals) :
    (displayToggleBlock s).source = s.source := by
  cases hb : s.backlight <;> simp [displayToggleBlock, hb]
theorem displayToggleBlock_oldsource (s : Globals) :
    (displayToggleBlock s).oldsource = s.oldsource := by
  cases hb : s.backlight <;> simp [displayToggleBlock, hb]

theorem SourceOK_congr {s x : Globals} (h : SourceOK s) (hs : x.source = s.source)
    (ho : x.oldsource = s.oldsource) : SourceOK x := by
  unfold SourceOK
  rw [hs, ho]
  exact h

theorem SourceOK_selectBlock {s : Globals} (h : SourceOK s) (n : Nat) (h1 : 1 ≤ n)
    (h4 : n ≤ 4) : SourceOK (selectBlock n s) := by
  unfold SourceOK
  rw [selectBlock_source, selectBlock_oldsource]
  exact ⟨⟨h1, h4⟩, h.1⟩

theorem SourceOK_rc5Body {s : Globals} (h : SourceOK s) (e : RC5Event) :
    SourceOK (rc5Body e s) :=
  rc5Body_cases SourceOK e s h
    (SourceOK_selectBlock h 1 (by decide) (by decide))
    (SourceOK_selectBlock h 2 (by decide) (by decide))
    (SourceOK_selectBlock h 3 (by decide) (by decide))
    (SourceOK_selectBlock h 4 (by decide) (by decide))
    (SourceOK_congr h (toggleMute_source s) (toggleMute_oldsource s))
    (SourceOK_congr h (volUpBlock_source s) (volUpBlock_oldsource s))
    (SourceOK_congr h (volDownBlock_source s) (volDownBlock_oldsource s))
    (SourceOK_congr h (displayToggleBlock_source s) (displayToggleBlock_oldsource s))

theorem SourceOK_RC5Update {s : Globals} (h : SourceOK s) (ev : Option RC5Event) :
    SourceOK (RC5Update ev s) := by
  cases ev with
  | none => exact h
  | some e =>
    rw [RC5Update_some]
    exact SourceOK_congr (SourceOK_rc5Body h e) rfl rfl

theorem SourceOK_volumeUpdate {s : Globals} (h : SourceOK s) : SourceOK (volumeUpdate s) := by
  rw [volumeUpdate_eq]
  split_ifs
  · exact SourceOK_congr h (volUpBlock_source s) (volUpBlock_oldsource s)
  · exact SourceOK_congr h (volDownBlock_source s) (volDownBlock_oldsource s)
  · exact h

theorem sourceUpdate_source (now : Nat) (s : Globals) :
    (sourceUpdate now s).source =
      if s.turnedRightFlag then (if s.source < 4 then s.source + 1 else 1)
      else if s.turnedLeftFlag then (if s.source > 1 then s.source - 1 else 4)
      else s.source := by
  cases hr : s.turnedRightFlag
  · cases hl : s.turnedLeftFlag
    · rw [sourceUpdate_idle now s hr hl]; simp
    · rw [sourceUpdate_left now s hr hl]
      cases hb : s.backlight <;> simp [hb]
  · rw [sourceUpdate_right now s hr]; simp

theorem sourceUpdate_oldsource (now : Nat) (s : Globals) :
    (sourceUpdate now s).oldsource =
      if s.turnedRightFlag = true ∨ s.turnedLeftFlag = true then s.source else s.oldsource := by
  cases hr : s.turnedRightFlag
  · cases hl : s.turnedLeftFlag
    · rw [sourceUpdate_idle now s hr hl]; simp
    · rw [sourceUpdate_left now s hr hl]
      cases hb : s.backlight <;> simp [hb]
  · rw [sourceUpdate_right now s hr]; simp

theorem sourceUpdate_volume (now : Nat) (s : Globals) :
    (sourceUpdate now s).volume = s.volume := by
  cases hr : s.turnedRightFlag
  · cases hl : s.turnedLeftFlag
    · rw [sourceUpdate_idle now s hr hl]
    · rw [sourceUpdate_left now s hr hl]
      cases hb : s.backlight <;> simp [hb]
  · rw [sourceUpdate_right now s hr]; simp

theorem SourceOK_sourceUpdate {s : Globals} (h : SourceOK s) (now : Nat) :
    SourceOK (sourceUpdate now s) := by
  obtain ⟨⟨h1, h2⟩, h3, h4⟩ := h
  unfold SourceOK
  rw [sourceUpdate_source, sourceUpdate_oldsource]
  refine ⟨?_, ?_⟩
  · split_ifs <;> omega
  · split_ifs <;> omega

theorem SourceOK_RotaryUpdate {s : Globals} (h : SourceOK s) (tSrc tChk : Nat) :
    SourceOK (RotaryUpdate tSrc tChk s) := by
  unfold RotaryUpdate
  simp only []
  split_ifs
  · exact SourceOK_volumeUpdate h
  · exact SourceOK_congr (SourceOK_sourceUpdate h tSrc) rfl rfl
  · exact SourceOK_sourceUpdate h tSrc
  · exact h

theorem SourceOK_knobCallback {s : Globals} (h : SourceOK s) (v : Int) :
    SourceOK (knobCallback v s) := by
  unfold knobCallback
  split_ifs
  · exact h
  · exact SourceOK_congr h rfl rfl
  · exact SourceOK_congr h rfl rfl
  · exact SourceOK_congr h rfl rfl

theorem SourceOK_buttonCallback {s : Globals} (h : SourceOK s) (d now : Nat) :
    SourceOK (buttonCallback d now s) := by
  rcases buttonCallback_cases d now s with hc | hc <;> rw [hc]
  · exact h
  · exact SourceOK_congr h rfl rfl

theorem SourceOK_step {s : Globals} (h : SourceOK s) (e : Event) : SourceOK (step e s) := by
  cases e with
  | knob v => exact SourceOK_knobCallback h v
  | button d now => exact SourceOK_buttonCallback h d now
  | remote ev => exact SourceOK_RC5Update h ev
  | rotary tSrc tChk => exact SourceOK_RotaryUpdate h tSrc tChk

theorem SourceOK_run {s : Globals} (h : SourceOK s) (es : List Event) :
    SourceOK (run es s) := by
  induction es generalizing s with
  | nil => exact h
  | cons e rest ih => exact ih (SourceOK_step h e)

theorem setup_oldsource (src : Option Nat) (vol : Option Int) :
    (setup src vol).oldsource = 1 := by
  unfold setup
  simp only [setIO_oldsource, setVolume_oldsource]
  split_ifs <;> rfl

theorem SourceOK_setup (v : Nat) (vol : Option Int) (h1 : 1 ≤ v) (h4 : v ≤ 4) :
    SourceOK (setup (some v) vol) := by
  unfold SourceOK
  rw [setup_source, setup_oldsource]
  simp only [Option.getD_some, toUInt8]
  omega

theorem highLines_of_BankOK {s : Globals} (hb : BankOK s) (h1 : 1 ≤ s.source)
    (h4 : s.source ≤ 4) : highLines s.out = [s.source - 1] := by
  have e : ∀ i : Nat, bankLine s.out (i : Int) = decide (i = s.source - 1) := by
    intro i
    have := hb (i : Int)
    by_cases hi : i = s.source - 1
    · rw [decide_eq_true hi]; exact this.2 (by omega)
    · rw [decide_eq_false hi]
      cases hl : bankLine s.out (i : Int)
      · rfl
      · exact absurd (this.1 hl) (by omega)
  unfold highLines
  simp only [e]
  have : s.source = 1 ∨ s.source = 2 ∨ s.source = 3 ∨ s.source = 4 := by omega
  rcases this with h | h | h | h <;> rw [h] <;> decide


theorem recognized_false {a c : Nat} (h : recognized a c = false) :
    (a ≠ 16 ∨ (c ≠ 1 ∧ c ≠ 3 ∧ c ≠ 7 ∧ c ≠ 8 ∧ c ≠ 13 ∧ c ≠ 16 ∧ c ≠ 17 ∧ c ≠ 59)) ∧
    (a ≠ 20 ∨ c ≠ 53) := by
  simp [recognized] at h
  omega

theorem rc5Body_unrecognized (t a c : Nat) (s : Globals) (h : recognized a c = false) :
    rc5Body ⟨t, a, c⟩ s = s := by
  obtain ⟨h1, h2⟩ := recognized_false h
  unfold rc5Body
  by_cases ha : a = 16
  · have hc : c ≠ 1 ∧ c ≠ 3 ∧ c ≠ 7 ∧ c ≠ 8 ∧ c ≠ 13 ∧ c ≠ 16 ∧ c ≠ 17 ∧ c ≠ 59 := by
      rcases h1 with h1 | h1
      · exact absurd ha h1
      · exact h1
    obtain ⟨c1, c3, c7, c8, c13, c16, c17, c59⟩ := hc
    rw [if_pos ha, if_neg c1, if_neg c3, if_neg c7, if_neg c8, if_neg c13, if_neg c16,
      if_neg c17, if_neg c59]
  · rw [if_neg ha]
    by_cases hb : a = 20
    · have hc : c ≠ 53 := by
        rcases h2 with h2 | h2
        · exact absurd hb h2
        · exact h2
      rw [if_pos hb, if_neg hc]
      split <;> rfl
    · rw [if_neg hb]

/-- C11, as amended (unrecognized remote events). For every state and every
remote event whose (address, command) pair is none of (0x10, 1, 3, 7, 8, 13,
16, 17, 59) and (0x14, 53), `RC5Update` records the event's toggle bit in
`oldtoggle` and does nothing else: every other global is unchanged and no
library call is issued. -/
theorem unrecognized_event (s : Globals) (t a c : Nat) (h : recognized a c = false) :
    RC5Update (some ⟨t, a, c⟩) s = { s with oldtoggle := t } := by
  rw [RC5Update_some, rc5Body_unrecognized t a c s h]

theorem unrecognized_event_witness :
    recognized 0x11 5 = false ∧
    RC5Update (some ⟨1, 0x11, 5⟩) (setup none none) = { setup none none with oldtoggle := 1 } :=
  ⟨by decide, unrecognized_event (setup none none) 1 0x11 5 (by decide)⟩

/-- C11 as stated fails. The pair (0x11, 5) is not recognized, yet after
start-up an event with that pair and toggle bit 1 changes the last-seen toggle
bit from 0 to 1; a mute press with toggle bit 1 that would have muted the
device is then ignored. -/
theorem unrecognized_event_counterexample :
    recognized 0x11 5 = false ∧
    (setup none none).oldtoggle = 0 ∧
    (RC5Update (some ⟨1, 0x11, 5⟩) (setup none none)).oldtoggle = 1 ∧
    RC5Update (some ⟨1, 0x11, 5⟩) (setup none none) ≠ setup none none ∧
    (RC5Update (some ⟨1, 0x10, 13⟩) (setup none none)).isMuted = true ∧
    (RC5Update (some ⟨1, 0x10, 13⟩)
      (RC5Update (some ⟨1, 0x11, 5⟩) (setup none none))).isMuted = false := by
  decide

/-- C12 (direct source selection by remote). For every state, in either mode
and with any current source, a remote event whose toggle bit differs from the
last-seen one sets `source` to 1 for (0x10, 1), 2 for (0x10, 8), 3 for (0x10, 7),
4 for (0x10, 3) and 3 for (0x14, 53); `oldsource` becomes the former source and
`state` is unchanged. -/
theorem direct_source_select (s : Globals) (t : Nat) (h : s.oldtoggle ≠ t) :
    ((RC5Update (some ⟨t, 0x10, 1⟩) s).source = 1 ∧
      (RC5Update (some ⟨t, 0x10, 1⟩) s).oldsource = s.source ∧
      (RC5Update (some ⟨t, 0x10, 1⟩) s).state = s.state) ∧
    ((RC5Update (some ⟨t, 0x10, 8⟩) s).source = 2 ∧
      (RC5Update (some ⟨t, 0x10, 8⟩) s).oldsource = s.source ∧
      (RC5Update (some ⟨t, 0x10, 8⟩) s).state = s.state) ∧
    ((RC5Update (some ⟨t, 0x10, 7⟩) s).source = 3 ∧
      (RC5Update (some ⟨t, 0x10, 7⟩) s).oldsource = s.source ∧
      (RC5Update (some ⟨t, 0x10, 7⟩) s).state = s.state) ∧
    ((RC5Update (some ⟨t, 0x10, 3⟩) s).source = 4 ∧
      (RC5Update (some ⟨t, 0x10, 3⟩) s).oldsource = s.source ∧
      (RC5Update (some ⟨t, 0x10, 3⟩) s).state = s.state) ∧
    ((RC5Update (some ⟨t, 0x14, 53⟩) s).source = 3 ∧
      (RC5Update (some ⟨t, 0x14, 53⟩) s).oldsource = s.source ∧
      (RC5Update (some ⟨t, 0x14, 53⟩) s).state = s.state) := by
  have key : ∀ a c n : Nat, toggleGated a c = true → gatedAction a c s = selectBlock n s →
      (RC5Update (some ⟨t, a, c⟩) s).source = n ∧
      (RC5Update (some ⟨t, a, c⟩) s).oldsource = s.source ∧
      (RC5Update (some ⟨t, a, c⟩) s).state = s.state := by
    intro a c n hg hact
    rw [RC5Update_fresh s t a c hg h, hact]
    exact ⟨selectBlock_source n s, selectBlock_oldsource n s, selectBlock_state n s⟩
  exact ⟨key 16 1 1 rfl rfl, key 16 8 2 rfl rfl, key 16 7 3 rfl rfl, key 16 3 4 rfl rfl,
    key 20 53 3 rfl rfl⟩

theorem direct_source_select_witness :
    ((buttonCallback 60 0 (setup (some 2) none)).oldtoggle ≠ 1 ∧
      (buttonCallback 60 0 (setup (some 2) none)).source = 2 ∧
      (buttonCallback 60 0 (setup (some 2) none)).state = STATE_IO) ∧
    ((RC5Update (some ⟨1, 0x10, 1⟩) (buttonCallback 60 0 (setup (some 2) none))).source = 1 ∧
      (RC5Update (some ⟨1, 0x10, 1⟩) (buttonCallback 60 0 (setup (some 2) none))).oldsource
        = (buttonCallback 60 0 (setup (some 2) none)).source ∧
      (RC5Update (some ⟨1, 0x10, 1⟩) (buttonCallback 60 0 (setup (some 2) none))).state
        = (buttonCallback 60 0 (setup (some 2) none)).state) :=
  ⟨by decide,
    (direct_source_select (buttonCallback 60 0 (setup (some 2) none)) 1 (by decide)).1⟩

/-- C13 (one-hot output bank). If the source stored at start-up is in [1, 4]
then after `setup` and after every sequence of events (knob callbacks, button
presses, remote polls, rotary dispatches) the source is in [1, 4] and exactly
one output line is high, the line `source - 1`. -/
theorem one_hot_bank (v : Nat) (vol : Option Int) (es : List Event)
    (h1 : 1 ≤ v) (h4 : v ≤ 4) :
    (1 ≤ (run es (setup (some v) vol)).source ∧ (run es (setup (some v) vol)).source ≤ 4) ∧
    (∀ p : Int, bankLine (run es (setup (some v) vol)).out p = true
      ↔ p = ((run es (setup (some v) vol)).source : Int) - 1) ∧
    highLines (run es (setup (some v) vol)).out = [(run es (setup (some v) vol)).source - 1] := by
  have hs := SourceOK_run (SourceOK_setup v vol h1 h4) es
  have hi := Inv_run (Inv_setup (some v) vol) es
  exact ⟨hs.1, hi.1, highLines_of_BankOK hi.1 hs.1.1 hs.1.2⟩

theorem one_hot_bank_witness :
    ((1 : Nat) ≤ 3 ∧ (3 : Nat) ≤ 4) ∧
    highLines (run [.button 60 0, .knob 1, .rotary 10 20, .remote (some ⟨1, 0x10, 13⟩),
        .remote (some ⟨0, 0x10, 8⟩), .knob (-1), .rotary 30 40] (setup (some 3) none)).out
      = [(run [.button 60 0, .knob 1, .rotary 10 20, .remote (some ⟨1, 0x10, 13⟩),
        .remote (some ⟨0, 0x10, 8⟩), .knob (-1), .rotary 30 40] (setup (some 3) none)).source
          - 1] :=
  ⟨by decide, (one_hot_bank 3 none _ (by decide) (by decide)).2.2⟩

/-! ## Hardware mute -/

theorem displayToggleBlock_isMuted (s : Globals) :
    (displayToggleBlock s).isMuted = s.isMuted := by
  cases hb : s.backlight <;> simp [displayToggleBlock, hb]

theorem displayToggleBlock_state (s : Globals) : (displayToggleBlock s).state = s.state := by
  cases hb : s.backlight <;> simp [displayToggleBlock, hb]

theorem displayToggleBlock_out (s : Globals) :
    (displayToggleBlock s).out = .digitalWriteBL (!s.backlight) :: s.out := by
  cases hb : s.backlight <;> simp [displayToggleBlock, hb]

theorem sourceUpdate_isMuted (now : Nat) (s : Globals)
    (h : s.turnedRightFlag = true ∨ s.turnedLeftFlag = true) :
    (sourceUpdate now s).isMuted = false := by
  cases hr : s.turnedRightFlag
  · cases hl : s.turnedLeftFlag
    · simp [hr, hl] at h
    · rw [sourceUpdate_left now s hr hl]; simp
  · rw [sourceUpdate_right now s hr]; simp

theorem knobCallback_isMuted (v : Int) (s : Globals) :
    (knobCallback v s).isMuted = s.isMuted := by
  unfold knobCallback
  split_ifs <;> rfl

theorem knobCallback_chip (v : Int) (s : Globals) :
    (knobCallback v s).out.filter Cmd.isMuses = s.out.filter Cmd.isMuses := by
  unfold knobCallback
  split_ifs <;> simp [emit, Cmd.isMuses]

/-- An event handled while the device is muted, and leaving it muted, sends
nothing to the volume chip. -/
theorem step_keeps_chip (s : Globals) (e : Event) (hm : s.isMuted = true)
    (hm2 : (step e s).isMuted = true) :
    (step e s).out.filter Cmd.isMuses = s.out.filter Cmd.isMuses := by
  cases e with
  | knob v => exact knobCallback_chip v s
  | button d now =>
    show (buttonCallback d now s).out.filter Cmd.isMuses = _
    rcases buttonCallback_cases d now s with hc | hc <;> rw [hc]
  | remote ev =>
    cases ev with
    | none => rfl
    | some ev =>
      have hm3 : (rc5Body ev s).isMuted = true := hm2
      show (rc5Body ev s).out.filter Cmd.isMuses = _
      have key := rc5Body_cases
        (fun x => x.isMuted = true → x.out.filter Cmd.isMuses = s.out.filter Cmd.isMuses) ev s
        (fun _ => rfl)
        (fun h => by rw [selectBlock_isMuted] at h; cases h)
        (fun h => by rw [selectBlock_isMuted] at h; cases h)
        (fun h => by rw [selectBlock_isMuted] at h; cases h)
        (fun h => by rw [selectBlock_isMuted] at h; cases h)
        (fun h => by rw [toggleMute_isMuted, hm] at h; cases h)
        (fun h => by rw [volUpBlock_isMuted] at h; cases h)
        (fun h => by rw [volDownBlock_isMuted] at h; cases h)
        (fun _ => by rw [displayToggleBlock_out]; simp [Cmd.isMuses])
      exact key hm3
  | rotary tSrc tChk =>
    have hv : (volumeUpdate s).isMuted = true →
        (volumeUpdate s).out.filter Cmd.isMuses = s.out.filter Cmd.isMuses := by
      intro h
      by_cases hf : s.turnedRightFlag = true ∨ s.turnedLeftFlag = true
      · rw [volumeUpdate_isMuted s hf] at h; cases h
      · have h1 : s.turnedRightFlag = false := by
          cases hr : s.turnedRightFlag
          · rfl
          · exact absurd (Or.inl hr) hf
        have h2 : s.turnedLeftFlag = false := by
          cases hl : s.turnedLeftFlag
          · rfl
          · exact absurd (Or.inr hl) hf
        rw [volumeUpdate_eq]; simp [h1, h2]
    have hs : (sourceUpdate tSrc s).isMuted = true →
        (sourceUpdate tSrc s).out.filter Cmd.isMuses = s.out.filter Cmd.isMuses := by
      intro h
      by_cases hf : s.turnedRightFlag = true ∨ s.turnedLeftFlag = true
      · rw [sourceUpdate_isMuted tSrc s hf] at h; cases h
      · have h1 : s.turnedRightFlag = false := by
          cases hr : s.turnedRightFlag
          · rfl
          · exact absurd (Or.inl hr) hf
        have h2 : s.turnedLeftFlag = false := by
          cases hl : s.turnedLeftFlag
          · rfl
          · exact absurd (Or.inr hl) hf
        rw [sourceUpdate_idle tSrc s h1 h2]
    revert hm2
    show (RotaryUpdate tSrc tChk s).isMuted = true →
      (RotaryUpdate tSrc tChk s).out.filter Cmd.isMuses = _
    unfold RotaryUpdate
    simp only []
    split_ifs
    · exact hv
    · exact hs
    · exact hs
    · intro _; rfl


theorem unMute_callsite (s : Globals) :
    ∃ x : Globals, x.isMuted = false ∧ unMute s = setIO (setVolume x) :=
  ⟨{ (if !s.backlight then emit (.digitalWriteBL true) { s with backlight := true } else s) with
      isMuted := false }, rfl, rfl⟩

theorem setIO_callsite (s : Globals) (hm : s.isMuted = true) :
    ∃ (x : Globals) (c : Cmd), x.isMuted = false ∧ setIO s = emit c (setVolume x) := by
  have key : ∀ s1 : Globals, s1.isMuted = true →
      ∃ (x : Globals) (c : Cmd), x.isMuted = false ∧
        (let s2 :=
          if s1.isMuted then
            let s3 := if !s1.backlight then emit (.digitalWriteBL true) { s1 with backlight := true }
              else s1
            let s3 := { s3 with isMuted := false }
            let s3 := emit .tftFillScreen s3
            setVolume s3
          else s1
        emit (.tftDrawString (.inputName ((s2.source : Int) - 1)) 150 200) s2)
          = emit c (setVolume x) := by
    intro s1 h1
    refine ⟨emit .tftFillScreen { (if !s1.backlight then
      emit (.digitalWriteBL true) { s1 with backlight := true } else s1) with isMuted := false },
      .tftDrawString (.inputName (((setVolume (emit .tftFillScreen { (if !s1.backlight then
        emit (.digitalWriteBL true) { s1 with backlight := true } else s1) with
          isMuted := false })).source : Int) - 1)) 150 200, rfl, ?_⟩
    simp only [h1, if_true]
  exact key _ hm


theorem volUpBlock_callsite (s : Globals) :
    ∃ x : Globals, x.isMuted = false ∧
      (volUpBlock s = x ∨ volUpBlock s = setVolume { x with volume := x.volume + 1 }) := by
  refine ⟨if s.isMuted then unMute s else s, ?_, ?_⟩
  · cases hm : s.isMuted <;> simp [hm]
  · by_cases hv : (if s.isMuted then unMute s else s).volume < 0
    · right
      show (if (if s.isMuted then unMute s else s).volume < 0 then _ else _) = _
      rw [if_pos hv]
    · left
      show (if (if s.isMuted then unMute s else s).volume < 0 then _ else _) = _
      rw [if_neg hv]

theorem volDownBlock_callsite (s : Globals) :
    ∃ x : Globals, x.isMuted = false ∧
      (volDownBlock s = x ∨ volDownBlock s = setVolume { x with volume := x.volume - 1 }) := by
  refine ⟨if s.isMuted then unMute s else s, ?_, ?_⟩
  · cases hm : s.isMuted <;> simp [hm]
  · by_cases hv : (if s.isMuted then unMute s else s).volume > -447
    · right
      show (if (if s.isMuted then unMute s else s).volume > -447 then _ else _) = _
      rw [if_pos hv]
    · left
      show (if (if s.isMuted then unMute s else s).volume > -447 then _ else _) = _
      rw [if_neg hv]

theorem setup_callsite (src : Option Nat) (vol : Option Int) :
    ∃ x : Globals, x.isMuted = false ∧
      setup src vol = { setIO (setVolume x) with isMuted := false } := by
  unfold setup
  simp only []
  split_ifs
  · exact ⟨_, rfl, rfl⟩
  · exact ⟨_, rfl, rfl⟩

/-- C14 (hardware mute). In a state reached from `setup` by any sequence of
events in which `isMuted` holds, the last call the volume chip received is
`Muses.mute()`, so the chip is muted; an event that leaves the device muted
sends nothing to the chip. Every call of `setVolume` in the sketch (in
`unMute`, in the muted branch of `setIO`, after the optional `unMute` of the
two volume blocks, in `setup`) is made on a state whose `isMuted` is false. -/
theorem hardware_mute (src : Option Nat) (vol : Option Int) (es : List Event) (e : Event)
    (hm : (run es (setup src vol)).isMuted = true) :
    (lastMuses (run es (setup src vol)) = some .musesMute ∧
      chipState (run es (setup src vol)) = some .muted) ∧
    ((step e (run es (setup src vol))).isMuted = true →
      (step e (run es (setup src vol))).out.filter Cmd.isMuses
        = (run es (setup src vol)).out.filter Cmd.isMuses) ∧
    (∀ s : Globals, ∃ x : Globals, x.isMuted = false ∧ unMute s = setIO (setVolume x)) ∧
    (∀ s : Globals, s.isMuted = true →
      ∃ (x : Globals) (c : Cmd), x.isMuted = false ∧ setIO s = emit c (setVolume x)) ∧
    (∀ s : Globals, ∃ x : Globals, x.isMuted = false ∧
      (volUpBlock s = x ∨ volUpBlock s = setVolume { x with volume := x.volume + 1 })) ∧
    (∀ s : Globals, ∃ x : Globals, x.isMuted = false ∧
      (volDownBlock s = x ∨ volDownBlock s = setVolume { x with volume := x.volume - 1 })) ∧
    (∀ (a : Option Nat) (b : Option Int), ∃ x : Globals, x.isMuted = false ∧
      setup a b = { setIO (setVolume x) with isMuted := false }) := by
  have h := (Inv_run (Inv_setup src vol) es).2.1 hm
  refine ⟨⟨h, ?_⟩, step_keeps_chip _ e hm, unMute_callsite, setIO_callsite,
    volUpBlock_callsite, volDownBlock_callsite, setup_callsite⟩
  unfold chipState
  rw [h]

theorem hardware_mute_witness :
    (run [.remote (some ⟨1, 0x10, 13⟩)] (setup none none)).isMuted = true ∧
    lastMuses (run [.remote (some ⟨1, 0x10, 13⟩)] (setup none none)) = some .musesMute ∧
    chipState (run [.remote (some ⟨1, 0x10, 13⟩)] (setup none none)) = some .muted ∧
    (step (.remote (some ⟨0, 0x10, 59⟩))
        (run [.remote (some ⟨1, 0x10, 13⟩)] (setup none none))).out.filter Cmd.isMuses
      = (run [.remote (some ⟨1, 0x10, 13⟩)] (setup none none)).out.filter Cmd.isMuses :=
  ⟨by decide,
    (hardware_mute none none [.remote (some ⟨1, 0x10, 13⟩)] (.remote (some ⟨0, 0x10, 59⟩))
      (by decide)).1.1,
    (hardware_mute none none [.remote (some ⟨1, 0x10, 13⟩)] (.remote (some ⟨0, 0x10, 59⟩))
      (by decide)).1.2,
    (hardware_mute none none [.remote (some ⟨1, 0x10, 13⟩)] (.remote (some ⟨0, 0x10, 59⟩))
      (by decide)).2.1 (by decide)⟩

/-! ## Write-through persistence -/

theorem Written_same {s x : Globals} (hv : x.volume = s.volume) (hs : x.source = s.source) :
    Written s x :=
  ⟨fun h => absurd hv h, fun h => absurd hs h⟩

theorem Written_congr {s x y : Globals} (h : Written s x) (ho : y.out = x.out)
    (hv : y.volume = x.volume) (hs : y.source = x.source) : Written s y := by
  unfold Written
  rw [ho, hv, hs]
  exact h

theorem Written_selectBlock (s : Globals) (n : Nat) : Written s (selectBlock n s) := by
  refine ⟨fun h => absurd (selectBlock_volume n s) h, fun _ => ?_⟩
  rw [selectBlock_eq, setIO_lastPutSource, setIO_source]

theorem Written_volUpBlock (s : Globals) : Written s (volUpBlock s) := by
  refine ⟨fun h => ?_, fun h => absurd (volUpBlock_source s) h⟩
  have key : ∀ x : Globals, x.volume = s.volume →
      (if x.volume < 0 then setVolume { x with volume := x.volume + 1 } else x).volume
        ≠ s.volume →
      lastPutVolume (if x.volume < 0 then setVolume { x with volume := x.volume + 1 }
        else x).out
        = some (if x.volume < 0 then setVolume { x with volume := x.volume + 1 }
          else x).volume := by
    intro x hx hne
    split_ifs with hv
    · rw [setVolume_lastPutVolume, setVolume_volume]
    · rw [if_neg hv] at hne; exact absurd hx hne
  exact key (if s.isMuted then unMute s else s) (by cases hm : s.isMuted <;> simp [hm]) h

theorem Written_volDownBlock (s : Globals) : Written s (volDownBlock s) := by
  refine ⟨fun h => ?_, fun h => absurd (volDownBlock_source s) h⟩
  have key : ∀ x : Globals, x.volume = s.volume →
      (if x.volume > -447 then setVolume { x with volume := x.volume - 1 } else x).volume
        ≠ s.volume →
      lastPutVolume (if x.volume > -447 then setVolume { x with volume := x.volume - 1 }
        else x).out
        = some (if x.volume > -447 then setVolume { x with volume := x.volume - 1 }
          else x).volume := by
    intro x hx hne
    split_ifs with hv
    · rw [setVolume_lastPutVolume, setVolume_volume]
    · rw [if_neg hv] at hne; exact absurd hx hne
  exact key (if s.isMuted then unMute s else s) (by cases hm : s.isMuted <;> simp [hm]) h

theorem Written_rc5Body (s : Globals) (e : RC5Event) : Written s (rc5Body e s) :=
  rc5Body_cases (Written s) e s (Written_same rfl rfl)
    (Written_selectBlock s 1) (Written_selectBlock s 2) (Written_selectBlock s 3)
    (Written_selectBlock s 4)
    (Written_same (toggleMute_volume s) (toggleMute_source s))
    (Written_volUpBlock s) (Written_volDownBlock s)
    (Written_same (displayToggleBlock_volume s) (displayToggleBlock_source s))

theorem Written_volumeUpdate (s : Globals) : Written s (volumeUpdate s) := by
  rw [volumeUpdate_eq]
  split_ifs
  · exact Written_congr (Written_volUpBlock s) rfl rfl rfl
  · exact Written_congr (Written_volDownBlock s) rfl rfl rfl
  · exact Written_same rfl rfl

theorem Written_sourceUpdate (s : Globals) (now : Nat) : Written s (sourceUpdate now s) := by
  refine ⟨fun h => absurd (sourceUpdate_volume now s) h, fun _ => ?_⟩
  cases hr : s.turnedRightFlag
  · cases hl : s.turnedLeftFlag
    · rename_i h; rw [sourceUpdate_idle now s hr hl] at h; exact absurd rfl h
    · rw [sourceUpdate_left now s hr hl]
      show lastPutSource ( setIO _).out = some ( setIO _).source
      rw [setIO_lastPutSource, setIO_source]
  · rw [sourceUpdate_right now s hr]
    show lastPutSource ( setIO _).out = some ( setIO _).source
    rw [setIO_lastPutSource, setIO_source]

theorem Written_step (s : Globals) (e : Event) : Written s (step e s) := by
  cases e with
  | knob v =>
    refine Written_same (knobCallback_volume v s) ?_
    show (knobCallback v s).source = s.source
    unfold knobCallback
    split_ifs <;> rfl
  | button d now =>
    show Written s (buttonCallback d now s)
    rcases buttonCallback_cases d now s with hc | hc <;> rw [hc]
    · exact Written_same rfl rfl
    · exact Written_same rfl rfl
  | remote ev =>
    cases ev with
    | none => exact Written_same rfl rfl
    | some ev => exact Written_congr (Written_rc5Body s ev) rfl rfl rfl
  | rotary tSrc tChk =>
    show Written s (RotaryUpdate tSrc tChk s)
    unfold RotaryUpdate
    simp only []
    split_ifs
    · exact Written_volumeUpdate s
    · exact Written_congr (Written_sourceUpdate s tSrc) rfl rfl rfl
    · exact Written_sourceUpdate s tSrc
    · exact Written_same rfl rfl

/-- C15 (write-through persistence). With the settings store as explicit
state, after `setup` and after every sequence of events the store holds the
current volume under `"VOLUME"` and the current source under `"SOURCE"`.
Moreover, for every state (whatever its trace and whatever the store held)
an event that changes the volume leaves the new volume in the store, and an
event that changes the source leaves the new source in the store. -/
theorem write_through (init st : Store) (es : List Event) (s : Globals) (e : Event) :
    storeAfter init (run es (setup init.source init.volume)).out
      = { volume := some (run es (setup init.source init.volume)).volume,
          source := some (run es (setup init.source init.volume)).source } ∧
    ((step e s).volume ≠ s.volume →
      (storeAfter st (step e s).out).volume = some (step e s).volume) ∧
    ((step e s).source ≠ s.source →
      (storeAfter st (step e s).out).source = some (step e s).source) := by
  have h := (Inv_run (Inv_setup init.source init.volume) es).2.2
  have w := Written_step s e
  refine ⟨?_, ?_, ?_⟩
  · unfold storeAfter
    rw [h.1, h.2]
    rfl
  · intro hv
    unfold storeAfter
    rw [w.1 hv]
    rfl
  · intro hs
    unfold storeAfter
    rw [w.2 hs]
    rfl

theorem write_through_witness :
    (step (.remote (some ⟨0, 0x10, 16⟩)) (setup none none)).volume ≠ (setup none none).volume ∧
    (storeAfter ⟨some (-447), some 2⟩
      (step (.remote (some ⟨0, 0x10, 16⟩)) (setup none none)).out).volume
        = some (step (.remote (some ⟨0, 0x10, 16⟩)) (setup none none)).volume ∧
    storeAfter ⟨some (-20), some 2⟩
        (run [.button 60 0, .knob 1, .rotary 5 6] (setup (some 2) (some (-20)))).out
      = { volume := some (run [.button 60 0, .knob 1, .rotary 5 6]
            (setup (some 2) (some (-20)))).volume,
          source := some (run [.button 60 0, .knob 1, .rotary 5 6]
            (setup (some 2) (some (-20)))).source } :=
  ⟨by decide,
    (write_through ⟨none, none⟩ ⟨some (-447), some 2⟩ [] (setup none none)
      (.remote (some ⟨0, 0x10, 16⟩))).2.1 (by decide),
    (write_through ⟨some (-20), some 2⟩ ⟨none, none⟩ [.button 60 0, .knob 1, .rotary 5 6]
      (setup none none) (.knob 0)).1⟩

/-! ## Rotary dispatch, knob latch, backlight, start-up source, source changes -/

theorem volUpBlock_turnedRightFlag (s : Globals) :
    (volUpBlock s).turnedRightFlag = s.turnedRightFlag := by
  cases hm : s.isMuted <;> simp [volUpBlock, hm] <;> split <;> simp
theorem volUpBlock_turnedLeftFlag (s : Globals) :
    (volUpBlock s).turnedLeftFlag = s.turnedLeftFlag := by
  cases hm : s.isMuted <;> simp [volUpBlock, hm] <;> split <;> simp
theorem volDownBlock_turnedRightFlag (s : Globals) :
    (volDownBlock s).turnedRightFlag = s.turnedRightFlag := by
  cases hm : s.isMuted <;> simp [volDownBlock, hm] <;> split <;> simp
theorem volDownBlock_turnedLeftFlag (s : Globals) :
    (volDownBlock s).turnedLeftFlag = s.turnedLeftFlag := by
  cases hm : s.isMuted <;> simp [volDownBlock, hm] <;> split <;> simp

theorem volumeUpdate_turnedRightFlag (s : Globals) :
    (volumeUpdate s).turnedRightFlag = false := by
  rw [volumeUpdate_eq]
  cases hr : s.turnedRightFlag <;> cases hl : s.turnedLeftFlag <;>
    simp [hr, hl, volDownBlock_turnedRightFlag]

theorem volumeUpdate_turnedLeftFlag (s : Globals) :
    (volumeUpdate s).turnedLeftFlag = (s.turnedRightFlag && s.turnedLeftFlag) := by
  rw [volumeUpdate_eq]
  cases hr : s.turnedRightFlag <;> cases hl : s.turnedLeftFlag <;>
    simp [hr, hl, volUpBlock_turnedLeftFlag]

theorem volumeUpdate_source (s : Globals) : (volumeUpdate s).source = s.source := by
  rw [volumeUpdate_eq]
  split_ifs
  · exact volUpBlock_source s
  · exact volDownBlock_source s
  · rfl

theorem volumeUpdate_oldsource (s : Globals) : (volumeUpdate s).oldsource = s.oldsource := by
  rw [volumeUpdate_eq]
  split_ifs
  · exact volUpBlock_oldsource s
  · exact volDownBlock_oldsource s
  · rfl

theorem volumeUpdate_state (s : Globals) : (volumeUpdate s).state = s.state := by
  rw [volumeUpdate_eq]
  split_ifs
  · exact volUpBlock_state s
  · exact volDownBlock_state s
  · rfl

theorem sourceUpdate_turnedRightFlag (now : Nat) (s : Globals) :
    (sourceUpdate now s).turnedRightFlag = false := by
  cases hr : s.turnedRightFlag
  · cases hl : s.turnedLeftFlag
    · rw [sourceUpdate_idle now s hr hl]; exact hr
    · rw [sourceUpdate_left now s hr hl]
      cases hb : s.backlight <;> simp [hb, hr]
  · rw [sourceUpdate_right now s hr]

theorem sourceUpdate_turnedLeftFlag (now : Nat) (s : Globals) :
    (sourceUpdate now s).turnedLeftFlag = (s.turnedRightFlag && s.turnedLeftFlag) := by
  cases hr : s.turnedRightFlag
  · cases hl : s.turnedLeftFlag
    · rw [sourceUpdate_idle now s hr hl]; simp [hl]
    · rw [sourceUpdate_left now s hr hl]; simp
  · rw [sourceUpdate_right now s hr]; simp

theorem RotaryUpdate_idle (a b : Nat) (s : Globals) (hr : s.turnedRightFlag = false)
    (hl : s.turnedLeftFlag = false) :
    (RotaryUpdate a b s).volume = s.volume ∧ (RotaryUpdate a b s).source = s.source ∧
    (RotaryUpdate a b s).out = s.out := by
  have hv : volumeUpdate s = s := by rw [volumeUpdate_eq]; simp [hr, hl]
  unfold RotaryUpdate
  simp only [sourceUpdate_idle a s hr hl, hv]
  split_ifs <;> exact ⟨rfl, rfl, rfl⟩

theorem RotaryUpdate_run (a b : Nat) (s : Globals) (h : s.state = STATE_RUN) :
    RotaryUpdate a b s = volumeUpdate s := by
  unfold RotaryUpdate
  rw [if_pos h]

theorem RotaryUpdate_select (a b : Nat) (s : Globals) (h : s.state = STATE_IO) :
    RotaryUpdate a b s =
      if subU32 b (sourceUpdate a s).milOnButton > TIME_EXITSELECT * 1000
      then { sourceUpdate a s with state := STATE_RUN } else sourceUpdate a s := by
  have hne : ¬ (s.state = STATE_RUN) := by rw [h]; decide
  unfold RotaryUpdate
  rw [if_neg hne, if_pos h]

/-- What `RotaryUpdate` in select mode shares with `sourceUpdate`. -/
theorem RotaryUpdate_select_fields (a b : Nat) (s : Globals) (h : s.state = STATE_IO) :
    (RotaryUpdate a b s).source = (sourceUpdate a s).source ∧
    (RotaryUpdate a b s).oldsource = (sourceUpdate a s).oldsource ∧
    (RotaryUpdate a b s).volume = (sourceUpdate a s).volume ∧
    (RotaryUpdate a b s).isMuted = (sourceUpdate a s).isMuted ∧
    (RotaryUpdate a b s).turnedRightFlag = (sourceUpdate a s).turnedRightFlag ∧
    (RotaryUpdate a b s).turnedLeftFlag = (sourceUpdate a s).turnedLeftFlag := by
  rw [RotaryUpdate_select a b s h]
  split_ifs <;> exact ⟨rfl, rfl, rfl, rfl, rfl, rfl⟩


/-- C16 (rotary dispatch routing). For a state with exactly one knob flag
latched: in run mode `RotaryUpdate` is `volumeUpdate`, it steps the volume up
(right) or down (left) within [-447, 0] and leaves `source`, `oldsource` and
`state` unchanged; in select mode it changes the source as `sourceUpdate` does
(with wrap-around), records the former source and leaves the volume
unchanged. In both modes both flags are clear afterwards, and a further
dispatch changes neither volume nor source and issues no library call. -/
theorem rotary_routing (s : Globals) (tSrc tChk t3 t4 : Nat)
    (h1 : s.turnedRightFlag ≠ s.turnedLeftFlag) :
    ((RotaryUpdate tSrc tChk { s with state := STATE_RUN })
        = volumeUpdate { s with state := STATE_RUN } ∧
      (RotaryUpdate tSrc tChk { s with state := STATE_RUN }).volume =
        (if s.turnedRightFlag then (if s.volume < 0 then s.volume + 1 else s.volume)
         else (if s.volume > -447 then s.volume - 1 else s.volume)) ∧
      (RotaryUpdate tSrc tChk { s with state := STATE_RUN }).source = s.source ∧
      (RotaryUpdate tSrc tChk { s with state := STATE_RUN }).oldsource = s.oldsource ∧
      (RotaryUpdate tSrc tChk { s with state := STATE_RUN }).state = STATE_RUN ∧
      (RotaryUpdate tSrc tChk { s with state := STATE_RUN }).turnedRightFlag = false ∧
      (RotaryUpdate tSrc tChk { s with state := STATE_RUN }).turnedLeftFlag = false) ∧
    ((RotaryUpdate tSrc tChk { s with state := STATE_IO }).source
        = (sourceUpdate tSrc { s with state := STATE_IO }).source ∧
      (RotaryUpdate tSrc tChk { s with state := STATE_IO }).source =
        (if s.turnedRightFlag then (if s.source < 4 then s.source + 1 else 1)
         else (if s.source > 1 then s.source - 1 else 4)) ∧
      (RotaryUpdate tSrc tChk { s with state := STATE_IO }).oldsource = s.source ∧
      (RotaryUpdate tSrc tChk { s with state := STATE_IO }).volume = s.volume ∧
      (RotaryUpdate tSrc tChk { s with state := STATE_IO }).turnedRightFlag = false ∧
      (RotaryUpdate tSrc tChk { s with state := STATE_IO }).turnedLeftFlag = false) ∧
    ((RotaryUpdate t3 t4 (RotaryUpdate tSrc tChk { s with state := STATE_RUN })).volume
        = (RotaryUpdate tSrc tChk { s with state := STATE_RUN }).volume ∧
      (RotaryUpdate t3 t4 (RotaryUpdate tSrc tChk { s with state := STATE_RUN })).source
        = (RotaryUpdate tSrc tChk { s with state := STATE_RUN }).source ∧
      (RotaryUpdate t3 t4 (RotaryUpdate tSrc tChk { s with state := STATE_RUN })).out
        = (RotaryUpdate tSrc tChk { s with state := STATE_RUN }).out) ∧
    ((RotaryUpdate t3 t4 (RotaryUpdate tSrc tChk { s with state := STATE_IO })).volume
        = (RotaryUpdate tSrc tChk { s with state := STATE_IO }).volume ∧
      (RotaryUpdate t3 t4 (RotaryUpdate tSrc tChk { s with state := STATE_IO })).source
        = (RotaryUpdate tSrc tChk { s with state := STATE_IO }).source ∧
      (RotaryUpdate t3 t4 (RotaryUpdate tSrc tChk { s with state := STATE_IO })).out
        = (RotaryUpdate tSrc tChk { s with state := STATE_IO }).out) := by
  have hrun : (RotaryUpdate tSrc tChk { s with state := STATE_RUN }) = volumeUpdate { s with state := STATE_RUN } := RotaryUpdate_run _ _ _ rfl
  have hsel := RotaryUpdate_select_fields tSrc tChk { s with state := STATE_IO } rfl
  have hor : s.turnedRightFlag = true ∨ s.turnedLeftFlag = true := by
    cases hr : s.turnedRightFlag <;> cases hl : s.turnedLeftFlag <;> simp [hr, hl] at h1 ⊢
  have hand : (s.turnedRightFlag && s.turnedLeftFlag) = false := by
    cases hr : s.turnedRightFlag <;> cases hl : s.turnedLeftFlag <;> simp [hr, hl] at h1 ⊢
  have r1 : (RotaryUpdate tSrc tChk { s with state := STATE_RUN }).turnedRightFlag = false := by
    rw [hrun]; exact volumeUpdate_turnedRightFlag _
  have r2 : (RotaryUpdate tSrc tChk { s with state := STATE_RUN }).turnedLeftFlag = false := by
    rw [hrun, volumeUpdate_turnedLeftFlag]; exact hand
  have s1 : (RotaryUpdate tSrc tChk { s with state := STATE_IO }).turnedRightFlag = false := by
    rw [hsel.2.2.2.2.1]; exact sourceUpdate_turnedRightFlag _ _
  have s2 : (RotaryUpdate tSrc tChk { s with state := STATE_IO }).turnedLeftFlag = false := by
    rw [hsel.2.2.2.2.2, sourceUpdate_turnedLeftFlag]; exact hand
  refine ⟨⟨hrun, ?_, ?_, ?_, ?_, r1, r2⟩, ⟨hsel.1, ?_, ?_, ?_, s1, s2⟩,
    RotaryUpdate_idle t3 t4 _ r1 r2, RotaryUpdate_idle t3 t4 _ s1 s2⟩
  · rw [hrun, volumeUpdate_volume]
    cases hr : s.turnedRightFlag <;> cases hl : s.turnedLeftFlag <;> simp [hr, hl] at h1 ⊢
  · rw [hrun, volumeUpdate_source]
  · rw [hrun, volumeUpdate_oldsource]
  · rw [hrun, volumeUpdate_state]
  · rw [hsel.1, sourceUpdate_source]
    cases hr : s.turnedRightFlag <;> cases hl : s.turnedLeftFlag <;> simp [hr, hl] at h1 ⊢
  · rw [hsel.2.1, sourceUpdate_oldsource]
    exact if_pos hor
  · rw [hsel.2.2.1, sourceUpdate_volume]

theorem rotary_routing_witness :
    (knobCallback 1 (setup (some 4) none)).turnedRightFlag
      ≠ (knobCallback 1 (setup (some 4) none)).turnedLeftFlag ∧
    (RotaryUpdate 10 20 { knobCallback 1 (setup (some 4) none) with state := STATE_RUN }).volume
      = -446 ∧
    (RotaryUpdate 10 20 { knobCallback 1 (setup (some 4) none) with state := STATE_IO }).source
      = 1 :=
  ⟨by decide,
    (rotary_routing (knobCallback 1 (setup (some 4) none)) 10 20 30 40 (by decide)).1.2.1,
    (rotary_routing (knobCallback 1 (setup (some 4) none)) 10 20 30 40 (by decide)).2.1.2.1⟩


theorem knobCallback_pending (v : Int) (s : Globals)
    (h : s.turnedRightFlag = true ∨ s.turnedLeftFlag = true) : knobCallback v s = s := by
  unfold knobCallback
  rw [if_pos (by rcases h with h | h <;> simp [h])]

theorem knobCallback_clear (v : Int) (s : Globals) (hr : s.turnedRightFlag = false)
    (hl : s.turnedLeftFlag = false) :
    ((knobCallback v s).turnedRightFlag = true ↔ v = 1) ∧
    ((knobCallback v s).turnedLeftFlag = true ↔ v = -1) := by
  unfold knobCallback
  rw [if_neg (by simp [hr, hl])]
  by_cases h1 : v = 1
  · subst h1; simp [hl]
  · by_cases h2 : v = -1
    · subst h2; simp [hr]
    · simp [h1, h2, hr, hl]

theorem knobCallback_both (v : Int) (s : Globals) :
    ((knobCallback v s).turnedRightFlag && (knobCallback v s).turnedLeftFlag)
      = (s.turnedRightFlag && s.turnedLeftFlag) := by
  cases hr : s.turnedRightFlag
  · cases hl : s.turnedLeftFlag
    · have h := knobCallback_clear v s hr hl
      by_cases h1 : v = 1
      · have h2 : ¬ v = -1 := by omega
        have : (knobCallback v s).turnedLeftFlag = false := by
          cases hx : (knobCallback v s).turnedLeftFlag
          · rfl
          · exact absurd (h.2.1 hx) h2
        rw [this]; simp
      · have : (knobCallback v s).turnedRightFlag = false := by
          cases hx : (knobCallback v s).turnedRightFlag
          · rfl
          · exact absurd (h.1.1 hx) h1
        rw [this]; simp
    · rw [knobCallback_pending v s (Or.inr hl), hr, hl]
  · rw [knobCallback_pending v s (Or.inl hr), hr]

theorem applyKnobOp_both (o : KnobOp) (s : Globals)
    (h : (s.turnedRightFlag && s.turnedLeftFlag) = false) :
    ((applyKnobOp o s).turnedRightFlag && (applyKnobOp o s).turnedLeftFlag) = false := by
  cases o with
  | callback v =>
    show ((knobCallback v s).turnedRightFlag && (knobCallback v s).turnedLeftFlag) = false
    rw [knobCallback_both]; exact h
  | volume =>
    show ((volumeUpdate s).turnedRightFlag && (volumeUpdate s).turnedLeftFlag) = false
    rw [volumeUpdate_turnedRightFlag]; rfl
  | source now =>
    show ((sourceUpdate now s).turnedRightFlag && (sourceUpdate now s).turnedLeftFlag) = false
    rw [sourceUpdate_turnedRightFlag]; rfl

theorem runKnobOps_both (os : List KnobOp) (s : Globals)
    (h : (s.turnedRightFlag && s.turnedLeftFlag) = false) :
    ((runKnobOps os s).turnedRightFlag && (runKnobOps os s).turnedLeftFlag) = false := by
  induction os generalizing s with
  | nil => exact h
  | cons o rest ih => exact ih (applyKnobOp o s) (applyKnobOp_both o s h)

/-- C17 (knob latch back-pressure). While a knob flag is latched,
`knobCallback` changes nothing, whatever value it is given. With both flags
clear it latches the right flag exactly for value 1 and the left flag exactly
for value -1. Hence, starting with both flags clear, after every interleaving
of `knobCallback`, `volumeUpdate` and `sourceUpdate` calls the two flags are
not both set. -/
theorem knob_backpressure (s : Globals) (v : Int) (os : List KnobOp) :
    ((s.turnedRightFlag = true ∨ s.turnedLeftFlag = true) → knobCallback v s = s) ∧
    (s.turnedRightFlag = false → s.turnedLeftFlag = false →
      ((knobCallback v s).turnedRightFlag = true ↔ v = 1) ∧
      ((knobCallback v s).turnedLeftFlag = true ↔ v = -1)) ∧
    (s.turnedRightFlag = false → s.turnedLeftFlag = false →
      ¬ ((runKnobOps os s).turnedRightFlag = true ∧
         (runKnobOps os s).turnedLeftFlag = true)) := by
  refine ⟨knobCallback_pending v s, knobCallback_clear v s, ?_⟩
  intro hr hl hboth
  have h := runKnobOps_both os s (by rw [hr, hl]; rfl)
  rw [hboth.1, hboth.2] at h
  cases h

theorem knob_backpressure_witness :
    ((setup none none).turnedRightFlag = false ∧ (setup none none).turnedLeftFlag = false) ∧
    (((knobCallback 1 (setup none none)).turnedRightFlag = true ↔ (1 : Int) = 1) ∧
      ((knobCallback 1 (setup none none)).turnedLeftFlag = true ↔ (1 : Int) = -1)) ∧
    knobCallback (-1) (knobCallback 1 (setup none none)) = knobCallback 1 (setup none none) ∧
    ¬ ((runKnobOps [.callback 1, .callback (-1), .source 5, .callback (-1), .callback 1,
          .volume] (setup none none)).turnedRightFlag = true ∧
       (runKnobOps [.callback 1, .callback (-1), .source 5, .callback (-1), .callback 1,
          .volume] (setup none none)).turnedLeftFlag = true) :=
  ⟨⟨by decide, by decide⟩,
    (knob_backpressure (setup none none) 1 []).2.1 (by decide) (by decide),
    (knob_backpressure (knobCallback 1 (setup none none)) (-1) []).1 (Or.inl (by decide)),
    (knob_backpressure (setup none none) 0 _).2.2 (by decide) (by decide)⟩

theorem RC5Update_display (s : Globals) (t : Nat) (h : s.oldtoggle ≠ t) :
    RC5Update (some ⟨t, 0x10, 59⟩) s =
      { s with backlight := !s.backlight, oldtoggle := t,
               out := .digitalWriteBL (!s.backlight) :: s.out } := by
  rw [RC5Update_fresh s t 16 59 rfl h]
  show ({ displayToggleBlock s with oldtoggle := t } : Globals) = _
  cases hb : s.backlight <;> simp [displayToggleBlock, emit, hb]

/-- C18 (backlight toggle). For every state, the remote event (0x10, 59) with
a toggle bit different from the last-seen one flips `backlight`, writes the
new level to the backlight pin and records the toggle bit; it changes no other
global, in particular not `isMuted`, `volume`, `source`, `oldsource`, `state`,
and issues no other library call. Two such events with toggle bits `t1 ≠ t2`
restore the original `backlight`. -/
theorem backlight_toggle (s : Globals) (t1 t2 : Nat) (h0 : s.oldtoggle ≠ t1) (h12 : t1 ≠ t2) :
    RC5Update (some ⟨t1, 0x10, 59⟩) s =
      { s with backlight := !s.backlight, oldtoggle := t1,
               out := .digitalWriteBL (!s.backlight) :: s.out } ∧
    ((RC5Update (some ⟨t1, 0x10, 59⟩) s).backlight = !s.backlight ∧
      (RC5Update (some ⟨t1, 0x10, 59⟩) s).isMuted = s.isMuted ∧
      (RC5Update (some ⟨t1, 0x10, 59⟩) s).volume = s.volume ∧
      (RC5Update (some ⟨t1, 0x10, 59⟩) s).source = s.source ∧
      (RC5Update (some ⟨t1, 0x10, 59⟩) s).oldsource = s.oldsource ∧
      (RC5Update (some ⟨t1, 0x10, 59⟩) s).state = s.state) ∧
    (RC5Update (some ⟨t1, 0x10, 59⟩) s).out = .digitalWriteBL (!s.backlight) :: s.out ∧
    (RC5Update (some ⟨t2, 0x10, 59⟩) (RC5Update (some ⟨t1, 0x10, 59⟩) s)).backlight
      = s.backlight := by
  have e1 := RC5Update_display s t1 h0
  refine ⟨e1, ?_, ?_, ?_⟩
  · rw [e1]; exact ⟨rfl, rfl, rfl, rfl, rfl, rfl⟩
  · rw [e1]
  · rw [RC5Update_display _ t2 (by rw [e1]; exact h12), e1]
    simp

theorem backlight_toggle_witness :
    ((mute (setup none none)).oldtoggle ≠ 1 ∧ (1 : Nat) ≠ 0) ∧
    (RC5Update (some ⟨1, 0x10, 59⟩) (mute (setup none none))).backlight
      = !(mute (setup none none)).backlight ∧
    (RC5Update (some ⟨1, 0x10, 59⟩) (mute (setup none none))).isMuted
      = (mute (setup none none)).isMuted ∧
    (RC5Update (some ⟨0, 0x10, 59⟩)
      (RC5Update (some ⟨1, 0x10, 59⟩) (mute (setup none none)))).backlight
        = (mute (setup none none)).backlight :=
  ⟨⟨by decide, by decide⟩,
    (backlight_toggle (mute (setup none none)) 1 0 (by decide) (by decide)).2.1.1,
    (backlight_toggle (mute (setup none none)) 1 0 (by decide) (by decide)).2.1.2.1,
    (backlight_toggle (mute (setup none none)) 1 0 (by decide) (by decide)).2.2.2⟩

/-- C19 fails on the code for a stored source outside [1, 4]. With 7 stored
under `"SOURCE"`, `setup` establishes source 7: `setIO` drives output line 6
and draws entry 6 of the four-entry name table. With 0 stored it uses index
-1. The sketch never checks the value it loads. -/
theorem setup_keeps_source_out_of_range :
    ((setup (some 7) none).source = 7 ∧ ¬ ((setup (some 7) none).source ≤ 4) ∧
      (setup (some 7) none).out.head? = some (.tftDrawString (.inputName 6) 150 200) ∧
      bankLine (setup (some 7) none).out 6 = true) ∧
    ((setup (some 0) none).source = 0 ∧ ¬ (1 ≤ (setup (some 0) none).source) ∧
      (setup (some 0) none).out.head? = some (.tftDrawString (.inputName (-1)) 150 200)) := by
  decide


theorem RC5Update_select_unmuted (s : Globals) (t a c n : Nat) (h : s.oldtoggle ≠ t)
    (hg : toggleGated a c = true) (hact : gatedAction a c s = selectBlock n s) :
    (RC5Update (some ⟨t, a, c⟩) s).isMuted = false ∧
    (RC5Update (some ⟨t, a, c⟩) s).volume = s.volume := by
  rw [RC5Update_fresh s t a c hg h, hact]
  exact ⟨selectBlock_isMuted n s, selectBlock_volume n s⟩

/-- C20 (every source change clears mute). For every state `setIO` ends with
`isMuted` false; entered with `isMuted` true it also ends with the backlight
on (writing the backlight pin high if it was off) and sends
`Muses.setVolume(volume, volume)` as the last call to the volume chip, the
volume being unchanged. Hence a knob source cycle dispatched in select mode,
right or left, and an executed remote source selection (fresh toggle bit;
Phono, Media, CD, Tuner, or the disc-player play command) leave the device
unmuted with the volume unchanged, whatever `backlight` was. -/
theorem source_change_clears_mute (s : Globals) (tSrc tChk t : Nat) (h : s.oldtoggle ≠ t) :
    ( setIO s).isMuted = false ∧
    (( setIO { s with isMuted := true }).backlight = true ∧
      ( setIO { s with isMuted := true }).volume = s.volume ∧
      lastMuses ( setIO { s with isMuted := true })
        = some (.musesSetVolume s.volume s.volume) ∧
      Cmd.digitalWriteBL true
        ∈ ( setIO { s with isMuted := true, backlight := false, out := [] }).out) ∧
    ((RotaryUpdate tSrc tChk { s with state := STATE_IO, turnedRightFlag := true }).isMuted
        = false ∧
      (RotaryUpdate tSrc tChk { s with state := STATE_IO, turnedRightFlag := true }).volume
        = s.volume) ∧
    ((RotaryUpdate tSrc tChk
        { s with state := STATE_IO, turnedRightFlag := false, turnedLeftFlag := true }).isMuted = false ∧
      (RotaryUpdate tSrc tChk
        { s with state := STATE_IO, turnedRightFlag := false, turnedLeftFlag := true }).volume = s.volume) ∧
    ((RC5Update (some ⟨t, 0x10, 1⟩) s).isMuted = false ∧
      (RC5Update (some ⟨t, 0x10, 1⟩) s).volume = s.volume) ∧
    ((RC5Update (some ⟨t, 0x10, 8⟩) s).isMuted = false ∧
      (RC5Update (some ⟨t, 0x10, 8⟩) s).volume = s.volume) ∧
    ((RC5Update (some ⟨t, 0x10, 7⟩) s).isMuted = false ∧
      (RC5Update (some ⟨t, 0x10, 7⟩) s).volume = s.volume) ∧
    ((RC5Update (some ⟨t, 0x10, 3⟩) s).isMuted = false ∧
      (RC5Update (some ⟨t, 0x10, 3⟩) s).volume = s.volume) ∧
    ((RC5Update (some ⟨t, 0x14, 53⟩) s).isMuted = false ∧
      (RC5Update (some ⟨t, 0x14, 53⟩) s).volume = s.volume) := by
  have hR := RotaryUpdate_select_fields tSrc tChk
    { s with state := STATE_IO, turnedRightFlag := true } rfl
  have hL := RotaryUpdate_select_fields tSrc tChk
    { s with state := STATE_IO, turnedRightFlag := false, turnedLeftFlag := true } rfl
  refine ⟨setIO_isMuted s, ⟨?_, ?_, ?_, ?_⟩, ⟨?_, ?_⟩, ⟨?_, ?_⟩,
    RC5Update_select_unmuted s t 16 1 1 h rfl rfl,
    RC5Update_select_unmuted s t 16 8 2 h rfl rfl,
    RC5Update_select_unmuted s t 16 7 3 h rfl rfl,
    RC5Update_select_unmuted s t 16 3 4 h rfl rfl,
    RC5Update_select_unmuted s t 20 53 3 h rfl rfl⟩
  · rw [setIO_backlight]; simp
  · rw [setIO_volume]
  · rw [setIO_lastMuses]; simp
  · simp [ setIO, emit, setVolume_out]
  · rw [hR.2.2.2.1]; exact sourceUpdate_isMuted _ _ (Or.inl rfl)
  · rw [hR.2.2.1, sourceUpdate_volume]
  · rw [hL.2.2.2.1]; exact sourceUpdate_isMuted _ _ (Or.inr rfl)
  · rw [hL.2.2.1, sourceUpdate_volume]

theorem source_change_clears_mute_witness :
    ((mute (setup none (some (-40)))).oldtoggle ≠ 1 ∧
      (mute (setup none (some (-40)))).isMuted = true) ∧
    ((RC5Update (some ⟨1, 0x10, 7⟩) (mute (setup none (some (-40))))).isMuted = false ∧
      (RC5Update (some ⟨1, 0x10, 7⟩) (mute (setup none (some (-40))))).volume
        = (mute (setup none (some (-40)))).volume) :=
  ⟨⟨by decide, by decide⟩,
    (source_change_clears_mute (mute (setup none (some (-40)))) 0 0 1 (by decide)).2.2.2.2.2.2.1⟩

end MusesClock
